import Mathlib

/-!
# The Obvius protocol route (`src/server/routes/obvius.js`)

A shallow embedding of the Express router that answers Obvius data-logger
requests: the key-lowercasing middleware, the `req.param` mixin, the helpers
`failure`, `success` and `handleStatus`, and the `router.all` handler.  The
route is embedded twice.

* First, in the namespace `Obvius`, on parameter values that are primitives
  (`undefined`, `null`, a boolean or a string), with the log and the responses
  kept as two lists.  A plain object is an association list read by its own
  keys, and `toLowerCase` folds the letters `A`..`Z`.
* Then, in the namespace `Obvius.Full`, on every value a query string or a
  JSON body delivers except numbers: arrays and nested objects too, for which
  a template literal can throw; a plain object also answers for the members
  it inherits from `Object.prototype`; log entries and responses are events of
  one trace, so that their order is kept; and the lookup takes the
  lower-casing function of the runtime as an argument.  The theorem
  `routeHandler_embed` shows that on requests of primitives the handler of
  `Obvius.Full` never throws and writes and sends what the handler of `Obvius`
  does.

In both, `req.params` and `req.query` are plain objects, which is what Express
delivers, and `req.body` is `undefined` (no body parser ran) or a plain
object; `config.obvius.password` is defined by the separate module
`../config` and is a field of the `Config` parameter.
-/

namespace Obvius

/-! ## JavaScript values -/

/-- The primitive JavaScript values that occur as parameter values. -/
inductive JsVal where
  | undefined
  | null
  | bool (b : Bool)
  | str (s : String)
  deriving DecidableEq, Repr

/-- ToBoolean: `undefined`, `null`, `false` and the empty string are falsy. -/
def JsVal.truthy : JsVal → Bool
  | .undefined => false
  | .null => false
  | .bool b => b
  | .str s => decide (s ≠ "")

/-- ToString, as applied by a template literal to an interpolated value. -/
def JsVal.toStr : JsVal → String
  | .undefined => "undefined"
  | .null => "null"
  | .bool true => "true"
  | .bool false => "false"
  | .str s => s

/-- The operator `a || b`. -/
def jsOr (a b : JsVal) : JsVal :=
  if a.truthy then a else b

/-- The method `String.prototype.toLowerCase`: the letters `A`..`Z` are
lower-cased; other characters (non-ASCII letters among them) are kept. -/
def toLowerCase (s : String) : String :=
  ⟨s.data.map Char.toLower⟩

/-- A plain object: its own keys with their values; the first entry of a key
is the one that is read. -/
abbrev Dict := List (String × JsVal)

/-- Property read `o[k]`: the value stored under `k`, else `undefined`. -/
def Dict.get (o : Dict) (k : String) : JsVal :=
  match o.lookup k with
  | some v => v
  | none => .undefined

/-- Property write `o[k] = v`: replaces the value of an existing key, else
adds the key at the end. -/
def Dict.set : Dict → String → JsVal → Dict
  | [], k, v => [(k, v)]
  | (k', v') :: rest, k, v =>
    if k' = k then (k, v) :: rest else (k', v') :: Dict.set rest k v

/-! ## Requests, responses, the log -/

/-- The parts of an Express request the router reads. -/
structure Request where
  /-- The header `req.headers['x-forwarded-for']`. -/
  xForwardedFor : JsVal
  /-- The address `req.connection.remoteAddress`. -/
  remoteAddress : JsVal
  /-- Route parameters `req.params`. -/
  params : Dict
  /-- Body fields `req.body`; `none` is `undefined`. -/
  body : Option Dict
  /-- Query fields `req.query`. -/
  query : Dict
  deriving DecidableEq, Repr

/-- The server configuration read by the router. -/
structure Config where
  /-- The secret `config.obvius.password`. -/
  password : JsVal
  deriving DecidableEq, Repr

/-- Log levels used by the router. -/
inductive Level where
  | info
  | error
  deriving DecidableEq, Repr

/-- One call of `log.info` or `log.error`. -/
structure LogEntry where
  level : Level
  message : String
  deriving DecidableEq, Repr

/-- One call of `res.status(status).send(body)`. -/
structure Response where
  status : Nat
  body : String
  deriving DecidableEq, Repr

/-- The observable state a request handler acts on. -/
structure State where
  /-- The log sink, oldest entry first. -/
  log : List LogEntry
  /-- The responses sent on this request's `res`, oldest first. -/
  sent : List Response
  deriving DecidableEq, Repr

/-- A JavaScript exception. -/
inductive JsError where
  | typeError (message : String)
  deriving DecidableEq, Repr

def MODE_STATUS : String := "STATUS"
def MODE_LOGFILE_UPLOAD : String := "LOGFILEUPLOAD"
def MODE_CONFIG_MANIFEST : String := "CONFIGFILEMANIFEST"
def MODE_CONFIG_UPLOAD : String := "CONFIGFILEUPLOAD"
def MODE_CONFIG_DOWNLOAD : String := "CONFIGFILEDOWNLOAD"
def MODE_TEST : String := "MODE_TEST"

/-- The expression `req.headers['x-forwarded-for'] || req.connection.remoteAddress`. -/
def requesterIp (req : Request) : JsVal :=
  jsOr req.xForwardedFor req.remoteAddress

/-- The call `log.info(message)`. -/
def logInfo (message : String) (st : State) : State :=
  { st with log := st.log ++ [⟨.info, message⟩] }

/-- The call `log.error(message)`. -/
def logError (message : String) (st : State) : State :=
  { st with log := st.log ++ [⟨.error, message⟩] }

/-- The call `res.status(status).send(body)`. -/
def send (status : Nat) (body : String) (st : State) : State :=
  { st with sent := st.sent ++ [⟨status, body⟩] }

/-- The template `<pre> ${reason} </pre>` of `failure`. -/
def failureBody (reason : String) : String :=
  "<pre> " ++ reason ++ " </pre>"

/-- The template of `success`: `<pre>`, newline, `SUCCESS`, newline, blank,
the comment, blank, a quotation mark, `</pre>`. -/
def successBody (comment : String) : String :=
  "<pre>\nSUCCESS\n " ++ comment ++ " \"</pre>"

/-- The function `failure(req, res, reason)`: logs at error level, then sends 406. -/
def failure (req : Request) (reason : String) (st : State) : State :=
  let ip := requesterIp req
  let st := logError ("Obvius protocol request from " ++ ip.toStr ++ " failed due to " ++ reason) st
  send 406 (failureBody reason) st

/-- The function `success(req, res, comment)`: sends 200. -/
def success (_req : Request) (comment : String) (st : State) : State :=
  send 200 (successBody comment) st

/-- The mixin `req.param(param, defaultValue)`. -/
def param (req : Request) (name : String) (defaultValue : JsVal) : JsVal :=
  let p := toLowerCase name
  if req.params.get p ≠ .undefined then req.params.get p
  else
    match req.body with
    | some b =>
      if b.get p ≠ .undefined then b.get p
      else if req.query.get p ≠ .undefined then req.query.get p
      else defaultValue
    | none =>
      if req.query.get p ≠ .undefined then req.query.get p
      else defaultValue

/-- The list `paramNames` of `handleStatus`. -/
def paramNames : List String :=
  ["MODE", "SENDDATATRACE", "SERIALNUMBER", "GSMSIGNAL",
   "LOOPNAME", "UPTIME", "PERCENTBLOCKSINUSE", "PERCENTINODESINUSE",
   "UPLOADATTEMPT", "ACQUISUITEVERSION", "USRVERSION", "ROOTVERSION",
   "KERNELVERSION", "FIRMWAREVERSION", "BOOTCOUNT", "BATTERYGOOD"]

/-- The line `handleStatus` adds to its record for one parameter name. -/
def statusLine (req : Request) (paramName : String) : String :=
  if param req paramName .undefined ≠ .bool false
      ∧ param req paramName .undefined ≠ .undefined then
    "\tGot " ++ paramName ++ ": " ++ (param req paramName .undefined).toStr ++ "\n"
  else
    "\tNo " ++ paramName ++ " submitted\n"

/-- The string `s` that `handleStatus` builds and logs. -/
def statusRecord (req : Request) : String :=
  paramNames.foldl (fun s paramName => s ++ statusLine req paramName)
    ("Handling request from " ++ (requesterIp req).toStr ++ "\n")

/-- The function `handleStatus(req, res)`. -/
def handleStatus (req : Request) (st : State) : State :=
  let st := logInfo (statusRecord req) st
  success req "" st

/-- The handler registered with `router.all`. -/
def routeHandler (cfg : Config) (req : Request) (st : State) : State :=
  let ip := requesterIp req
  let st := logInfo ("Received Obvious protocol request from " ++ ip.toStr) st
  if !(param req "password" .undefined).truthy then
    failure req "password parameter is required." st
  else if param req "password" .undefined ≠ cfg.password then
    failure req "password was not correct." st
  else
    let mode := param req "mode" (.bool false)
    if mode = .bool false then
      failure req "Request must include mode parameter." st
    else if mode = .str MODE_STATUS then
      handleStatus req st
    else if mode = .str MODE_LOGFILE_UPLOAD then
      failure req "Logfile Upload Not Implemented" st
    else if mode = .str MODE_CONFIG_DOWNLOAD then
      failure req "Config Download Not Implemented" st
    else if mode = .str MODE_CONFIG_MANIFEST then
      failure req "Config Manifest Not Implemented" st
    else if mode = .str MODE_CONFIG_UPLOAD then
      failure req "Config Upload Not Implemented" st
    else if mode = .str MODE_TEST then
      failure req "Test Not Implemented" st
    else
      failure req ("Unknown mode \x27" ++ mode.toStr ++ "\x27") st

/-! ## The middlewares and the router -/

/-- The start of `for (const key of o)` for a plain object `o`: the loop asks
`o` for its iterator, a plain object has none, and a TypeError is thrown
before the body runs once. -/
def forOf (name : String) (_o : Dict) : Except JsError (List JsVal) :=
  .error (.typeError (name ++ " is not iterable"))

/-- The body of the loops of the lowercasing middleware, run for each key the
iteration yields: `log.info(key)`, then `o[key.toLowerCase()] = o[key]`; only
a string has a `toLowerCase` method. -/
def lowercaseLoop (o : Dict) (st : State) : List JsVal → State × Except JsError Dict
  | [] => (st, .ok o)
  | key :: rest =>
    let st := logInfo key.toStr st
    match key with
    | .str k => lowercaseLoop (o.set (toLowerCase k) (o.get k)) st rest
    | _ => (st, .error (.typeError "key.toLowerCase is not a function"))

/-- One loop `for (const key of o) { ... }` of the lowercasing middleware. -/
def lowercaseObject (name : String) (o : Dict) (st : State) : State × Except JsError Dict :=
  match forOf name o with
  | .error e => (st, .error e)
  | .ok keys => lowercaseLoop o st keys

/-- The first middleware, "a middleware to lowercase all params": the query,
then the route parameters, then the body when there is one; `next()` is
reached only when no loop throws. -/
def lowercaseParams (req : Request) (st : State) : State × Except JsError Request :=
  match lowercaseObject "req.query" req.query st with
  | (st, .error e) => (st, .error e)
  | (st, .ok query) =>
    match lowercaseObject "req.params" req.params st with
    | (st, .error e) => (st, .error e)
    | (st, .ok params) =>
      match req.body with
      | none => (st, .ok { req with query := query, params := params })
      | some b =>
        match lowercaseObject "req.body" b st with
        | (st, .error e) => (st, .error e)
        | (st, .ok body) =>
          (st, .ok { req with query := query, params := params, body := some body })

/-- The second middleware: it installs `req.param` (the function `param` of
this development, which reads the request it is given) and calls `next()`. -/
def addParamMixin (req : Request) (st : State) : State × Except JsError Request :=
  (st, .ok req)

/-- What the router leaves behind for one request: the state, and the
exception that escaped it, if one did. -/
structure Outcome where
  state : State
  uncaught : Option JsError
  deriving DecidableEq, Repr

/-- The router: the two middlewares, then the handler, with no `try`/`catch`
anywhere. -/
def router (cfg : Config) (req : Request) (st : State) : Outcome :=
  match lowercaseParams req st with
  | (st, .error e) => ⟨st, some e⟩
  | (st, .ok req) =>
    match addParamMixin req st with
    | (st, .error e) => ⟨st, some e⟩
    | (st, .ok req) => ⟨routeHandler cfg req st, none⟩

/-! ## Sample inputs -/

/-- A configuration whose secret is `s3cret`. -/
def sampleConfig : Config := ⟨.str "s3cret"⟩

/-- A state with an empty log and nothing sent. -/
def emptyState : State := ⟨[], []⟩

/-- A request from `10.0.0.1` with the given query fields, no route
parameters and no body. -/
def queryRequest (query : Dict) : Request :=
  ⟨.undefined, .str "10.0.0.1", [], none, query⟩

/-- A valid STATUS request with one telemetry field. -/
def statusRequest : Request :=
  queryRequest [("password", .str "s3cret"), ("mode", .str "STATUS"), ("uptime", .str "42")]

/-- The STATUS request with its keys capitalised as a device may send them. -/
def mixedCaseRequest : Request :=
  queryRequest [("PASSWORD", .str "s3cret"), ("Mode", .str "STATUS"), ("UPTIME", .str "42")]

/-- A request whose password is present and is the empty string. -/
def emptyPasswordRequest : Request :=
  queryRequest [("password", .str ""), ("mode", .str "STATUS")]

/-- A request with a wrong password. -/
def wrongPasswordRequest : Request :=
  queryRequest [("password", .str "guess"), ("mode", .str "STATUS")]

/-- A request without a password. -/
def noPasswordRequest : Request :=
  queryRequest [("mode", .str "STATUS")]

/-- A valid request without a mode, the password in the body. -/
def noModeRequest : Request :=
  ⟨.str "192.0.2.7", .str "10.0.0.1", [], some [("password", .str "s3cret")], []⟩

/-- A second request with a wrong password, otherwise like
`wrongPasswordRequest`. -/
def otherWrongPasswordRequest : Request :=
  queryRequest [("password", .str "letmein"), ("mode", .str "STATUS")]

/-- A valid STATUS request whose `x-forwarded-for` header is present and
empty. -/
def emptyForwardedRequest : Request :=
  ⟨.str "", .str "10.0.0.1", [], none,
    [("password", .str "s3cret"), ("mode", .str "STATUS")]⟩

/-- A valid STATUS request that came through a proxy. -/
def forwardedRequest : Request :=
  ⟨.str "192.0.2.7", .str "10.0.0.1", [], none,
    [("password", .str "s3cret"), ("mode", .str "STATUS")]⟩

/-- A configuration whose secret is the empty string. -/
def emptySecretConfig : Config := ⟨.str ""⟩

/-! ## Authentication outcome and related requests -/

/-- The three outcomes of the password checks. -/
inductive AuthOutcome where
  | missing
  | invalid
  | valid
  deriving DecidableEq, Repr

/-- The two password checks at the head of the handler, as an outcome: the
first branch is `!req.param('password')`, the second is
`req.param('password') !== config.obvius.password`. -/
def authenticate (cfg : Config) (req : Request) : AuthOutcome :=
  if !(param req "password" .undefined).truthy then .missing
  else if param req "password" .undefined ≠ cfg.password then .invalid
  else .valid

/-- Two objects that agree on every key other than `password`. -/
def AgreeOffPassword (o₁ o₂ : Dict) : Prop :=
  ∀ k : String, k ≠ "password" → o₁.get k = o₂.get k

/-- Two requests that differ at most in the values they carry under the key
`password`: same headers and address, a body in both or in neither, and the
same value under every other key of each source. -/
def SameExceptPassword (r₁ r₂ : Request) : Prop :=
  r₁.xForwardedFor = r₂.xForwardedFor ∧ r₁.remoteAddress = r₂.remoteAddress
  ∧ AgreeOffPassword r₁.params r₂.params
  ∧ AgreeOffPassword r₁.query r₂.query
  ∧ (match r₁.body, r₂.body with
      | none, none => True
      | some b₁, some b₂ => AgreeOffPassword b₁ b₂
      | _, _ => False)

/-- The state `s` followed by what `x` holds; a handler that only appends
maps `s.append x` to `s.append` of what it makes of `x`. -/
def State.append (s x : State) : State :=
  ⟨s.log ++ x.log, s.sent ++ x.sent⟩


/-! # The route on every parsed value

The definitions above take parameter values to be primitives.  A query string
such as `?uptime[toString]=1`, a repeated key or a JSON body delivers objects
and arrays as well, a plain object also answers for the members it inherits
from `Object.prototype`, and the order in which the log is written and the
response is sent is part of what the route does.  The namespace `Full` embeds
the same source functions over those values, with one trace of events, and
with exceptions: a template literal throws a TypeError for an object that has
an own `toString` field.  `toLowerCase` of the names the handler itself looks
up is exact (they are ASCII); `paramWith` takes the lower-casing function as an
argument. -/

namespace Full

/-- A value a request parameter can hold: a primitive, an array, a plain
object, or (read from the prototype of a plain object) a function of the
runtime or `Object.prototype` itself. -/
inductive JsValue where
  | prim (p : JsVal)
  | arr (items : List JsValue)
  | obj (fields : List (String × JsValue))
  | native (name : String)
  | objectPrototype

/-- A plain object: its own fields, the first entry of a key being the one
that is read. -/
abbrev Obj := List (String × JsValue)

/-- The primitive a value is, if it is one. -/
def JsValue.asPrim : JsValue → Option JsVal
  | .prim p => some p
  | _ => none

/-- ToBoolean: objects, arrays and functions are truthy. -/
def JsValue.truthy : JsValue → Bool
  | .prim p => p.truthy
  | _ => true

/-- The value `undefined`. -/
def undefined : JsValue := .prim .undefined

mutual
/-- ToString, as applied by a template literal.  A plain object uses the
inherited `Object.prototype.toString` unless it has an own field `toString`,
which as parsed data is not callable: then the conversion throws a TypeError.
An array joins its elements. -/
def JsValue.toStr : JsValue → Except JsError String
  | .prim p => .ok p.toStr
  | .arr items => joinItems items
  | .obj fields =>
    match fields.lookup "toString" with
    | some _ => .error (.typeError "Cannot convert object to primitive value")
    | none => .ok "[object Object]"
  | .native name => .ok ("function " ++ name ++ "() { [native code] }")
  | .objectPrototype => .ok "[object Object]"
termination_by structural v => v
/-- The method `Array.prototype.join` with its default separator: an element
that is `undefined` or `null` gives the empty string, any other its ToString. -/
def joinItems : List JsValue → Except JsError String
  | [] => .ok ""
  | v :: rest =>
    match (match v with
      | JsValue.prim JsVal.undefined => Except.ok ""
      | JsValue.prim JsVal.null => Except.ok ""
      | v => JsValue.toStr v) with
    | .error e => .error e
    | .ok s =>
      match rest with
      | [] => .ok s
      | _ :: _ =>
        match joinItems rest with
        | .error e => .error e
        | .ok t => .ok (s ++ "," ++ t)
termination_by structural items => items
end

/-- Whether a template literal can convert the value to a string. -/
def JsValue.convertible (v : JsValue) : Bool :=
  match v.toStr with
  | .ok _ => true
  | .error _ => false

/-- The member of the given name that a plain object inherits from
`Object.prototype`, `undefined` when there is none. -/
def inheritedMember (k : String) : JsValue :=
  if k = "constructor" then .native "Object"
  else if k = "__proto__" then .objectPrototype
  else if k ∈ ["hasOwnProperty", "isPrototypeOf", "propertyIsEnumerable", "toLocaleString",
      "toString", "valueOf", "__defineGetter__", "__defineSetter__", "__lookupGetter__",
      "__lookupSetter__"] then .native k
  else undefined

/-- The names of the members of `Object.prototype`. -/
def inheritedNames : List String :=
  ["constructor", "__proto__", "hasOwnProperty", "isPrototypeOf", "propertyIsEnumerable",
    "toLocaleString", "toString", "valueOf", "__defineGetter__", "__defineSetter__",
    "__lookupGetter__", "__lookupSetter__"]

/-- Property read `o[k]` on a plain object: the own field, else the inherited
member. -/
def Obj.get (o : Obj) (k : String) : JsValue :=
  match o.lookup k with
  | some v => v
  | none => inheritedMember k

/-- Property write `o[k] = v`: replaces the value of an existing key, else
adds the key at the end. -/
def Obj.set : Obj → String → JsValue → Obj
  | [], k, v => [(k, v)]
  | (k', v') :: rest, k, v =>
    if k' = k then (k, v) :: rest else (k', v') :: Obj.set rest k v

/-! ## Requests and the trace of events -/

/-- The parts of an Express request the router reads; the header and the
address are strings or `undefined`. -/
structure Request where
  /-- The header `req.headers['x-forwarded-for']`. -/
  xForwardedFor : JsVal
  /-- The address `req.connection.remoteAddress`. -/
  remoteAddress : JsVal
  /-- Route parameters `req.params`. -/
  params : Obj
  /-- Body fields `req.body`; `none` is `undefined`. -/
  body : Option Obj
  /-- Query fields `req.query`. -/
  query : Obj

/-- What the route does that can be observed: a call of the logger or a
response sent. -/
inductive Event where
  | logged (entry : LogEntry)
  | sent (response : Response)
  deriving DecidableEq, Repr

/-- The events so far, oldest first. -/
abbrev Trace := List Event

/-- The log entries of a trace, in order. -/
def logOf (t : Trace) : List LogEntry :=
  t.filterMap fun e => match e with
    | .logged entry => some entry
    | .sent _ => none

/-- The responses of a trace, in order. -/
def sentOf (t : Trace) : List Response :=
  t.filterMap fun e => match e with
    | .logged _ => none
    | .sent response => some response

/-- How a run ends: the trace, and the exception that left it, if any. -/
structure Run where
  trace : Trace
  uncaught : Option JsError
  deriving DecidableEq, Repr

/-- The expression `req.headers['x-forwarded-for'] || req.connection.remoteAddress`. -/
def requesterIp (req : Request) : JsVal :=
  jsOr req.xForwardedFor req.remoteAddress

/-- The call `log.info(message)`. -/
def logInfo (message : String) (t : Trace) : Trace :=
  t ++ [.logged ⟨.info, message⟩]

/-- The call `log.error(message)`. -/
def logError (message : String) (t : Trace) : Trace :=
  t ++ [.logged ⟨.error, message⟩]

/-- The call `res.status(status).send(body)`. -/
def send (status : Nat) (body : String) (t : Trace) : Trace :=
  t ++ [.sent ⟨status, body⟩]

/-- The function `failure(req, res, reason)`: `log.error`, then the 406. -/
def failure (req : Request) (reason : String) (t : Trace) : Trace :=
  let ip := requesterIp req
  let t := logError ("Obvius protocol request from " ++ ip.toStr ++ " failed due to " ++ reason) t
  send 406 (failureBody reason) t

/-- The function `success(req, res, comment)`. -/
def success (_req : Request) (comment : String) (t : Trace) : Trace :=
  send 200 (successBody comment) t

/-- The mixin `req.param(param, defaultValue)`, with the lower-casing
function of the runtime as an argument. -/
def paramWith (lower : String → String) (req : Request) (name : String)
    (defaultValue : JsValue) : JsValue :=
  let p := lower name
  if (req.params.get p).asPrim ≠ some .undefined then req.params.get p
  else
    match req.body with
    | some b =>
      if (b.get p).asPrim ≠ some .undefined then b.get p
      else if (req.query.get p).asPrim ≠ some .undefined then req.query.get p
      else defaultValue
    | none =>
      if (req.query.get p).asPrim ≠ some .undefined then req.query.get p
      else defaultValue

/-- The mixin `req.param` for the names the route itself passes, which are
ASCII. -/
def param (req : Request) (name : String) (defaultValue : JsValue) : JsValue :=
  paramWith toLowerCase req name defaultValue

/-- One turn of the loop of `handleStatus`: the line for one name; the
template literal throws when the value has no string conversion. -/
def statusLine (req : Request) (paramName : String) : Except JsError String :=
  if (param req paramName undefined).asPrim ≠ some (.bool false)
      ∧ (param req paramName undefined).asPrim ≠ some .undefined then
    match (param req paramName undefined).toStr with
    | .error e => .error e
    | .ok text => .ok ("\tGot " ++ paramName ++ ": " ++ text ++ "\n")
  else
    .ok ("\tNo " ++ paramName ++ " submitted\n")

/-- The loop `for (const paramName of paramNames)` of `handleStatus`, from the
string built so far. -/
def statusLoop (req : Request) : List String → String → Except JsError String
  | [], s => .ok s
  | paramName :: rest, s =>
    match statusLine req paramName with
    | .error e => .error e
    | .ok line => statusLoop req rest (s ++ line)

/-- The string `s` that `handleStatus` builds. -/
def statusRecord (req : Request) : Except JsError String :=
  statusLoop req paramNames ("Handling request from " ++ (requesterIp req).toStr ++ "\n")

/-- The function `handleStatus(req, res)`: an exception in the loop leaves it
before `log.info(s)` and `success`. -/
def handleStatus (req : Request) (t : Trace) : Run :=
  match statusRecord req with
  | .error e => ⟨t, some e⟩
  | .ok s => ⟨success req "" (logInfo s t), none⟩

/-- The handler registered with `router.all`. -/
def routeHandler (cfg : Config) (req : Request) (t : Trace) : Run :=
  let ip := requesterIp req
  let t := logInfo ("Received Obvious protocol request from " ++ ip.toStr) t
  if !(param req "password" undefined).truthy then
    ⟨failure req "password parameter is required." t, none⟩
  else if (param req "password" undefined).asPrim ≠ some cfg.password then
    ⟨failure req "password was not correct." t, none⟩
  else
    let mode := param req "mode" (.prim (.bool false))
    if mode.asPrim = some (.bool false) then
      ⟨failure req "Request must include mode parameter." t, none⟩
    else if mode.asPrim = some (.str MODE_STATUS) then
      handleStatus req t
    else if mode.asPrim = some (.str MODE_LOGFILE_UPLOAD) then
      ⟨failure req "Logfile Upload Not Implemented" t, none⟩
    else if mode.asPrim = some (.str MODE_CONFIG_DOWNLOAD) then
      ⟨failure req "Config Download Not Implemented" t, none⟩
    else if mode.asPrim = some (.str MODE_CONFIG_MANIFEST) then
      ⟨failure req "Config Manifest Not Implemented" t, none⟩
    else if mode.asPrim = some (.str MODE_CONFIG_UPLOAD) then
      ⟨failure req "Config Upload Not Implemented" t, none⟩
    else if mode.asPrim = some (.str MODE_TEST) then
      ⟨failure req "Test Not Implemented" t, none⟩
    else
      match mode.toStr with
      | .error e => ⟨t, some e⟩
      | .ok text => ⟨failure req ("Unknown mode \x27" ++ text ++ "\x27") t, none⟩

/-! ## The middlewares and the router -/

/-- The start of `for (const key of o)` for a plain object `o`: a plain object
has no iterator, and a TypeError is thrown before the body runs once. -/
def forOf (name : String) (_o : Obj) : Except JsError (List JsValue) :=
  .error (.typeError (name ++ " is not iterable"))

/-- The body of the loops of the lowercasing middleware, for each key the
iteration yields: `log.info(key)`, then `o[key.toLowerCase()] = o[key]`; only
a string has a `toLowerCase` method. -/
def lowercaseLoop (lower : String → String) (o : Obj) (t : Trace) :
    List JsValue → Trace × Except JsError Obj
  | [] => (t, .ok o)
  | key :: rest =>
    match key.toStr with
    | .error e => (t, .error e)
    | .ok text =>
      match key with
      | .prim (.str k) =>
        lowercaseLoop lower (o.set (lower k) (o.get k)) (logInfo text t) rest
      | _ => (logInfo text t, .error (.typeError "key.toLowerCase is not a function"))

/-- One loop `for (const key of o) { ... }` of the lowercasing middleware. -/
def lowercaseObject (lower : String → String) (name : String) (o : Obj) (t : Trace) :
    Trace × Except JsError Obj :=
  match forOf name o with
  | .error e => (t, .error e)
  | .ok keys => lowercaseLoop lower o t keys

/-- The first middleware, "a middleware to lowercase all params". -/
def lowercaseParams (lower : String → String) (req : Request) (t : Trace) :
    Trace × Except JsError Request :=
  match lowercaseObject lower "req.query" req.query t with
  | (t, .error e) => (t, .error e)
  | (t, .ok query) =>
    match lowercaseObject lower "req.params" req.params t with
    | (t, .error e) => (t, .error e)
    | (t, .ok params) =>
      match req.body with
      | none => (t, .ok { req with query := query, params := params })
      | some b =>
        match lowercaseObject lower "req.body" b t with
        | (t, .error e) => (t, .error e)
        | (t, .ok body) =>
          (t, .ok { req with query := query, params := params, body := some body })

/-- The router: the lowercasing middleware, the middleware that installs
`req.param`, then the handler, with no `try`/`catch` anywhere. -/
def router (lower : String → String) (cfg : Config) (req : Request) (t : Trace) : Run :=
  match lowercaseParams lower req t with
  | (t, .error e) => ⟨t, some e⟩
  | (t, .ok req) => routeHandler cfg req t

/-! ## The wording of the specification, for comparison -/

/-- The specification's "first defined value found, else the default". -/
def firstDefined : List JsValue → JsValue → JsValue
  | [], defaultValue => defaultValue
  | v :: rest, defaultValue =>
    if v.asPrim ≠ some .undefined then v else firstDefined rest defaultValue

/-- The field a source was given under a key: its own entry, `undefined` when
it has none. -/
def Obj.own (o : Obj) (k : String) : JsValue :=
  match o.lookup k with
  | some v => v
  | none => undefined

/-- The specification's order of sources for one key, each read by `read`:
the route parameters, then the body fields (skipped when there is no body),
then the query fields. -/
def candidates (read : Obj → String → JsValue) (req : Request) (key : String) :
    List JsValue :=
  match req.body with
  | some b => [read req.params key, read b key, read req.query key]
  | none => [read req.params key, read req.query key]

/-! ## Requests of primitives -/

/-- A plain object of primitives as a plain object of values. -/
def embedObj (o : Dict) : Obj :=
  o.map fun kv => (kv.1, JsValue.prim kv.2)

/-- A request whose parameter values are primitives, as a request of the
general kind. -/
def embed (req : Obvius.Request) : Request :=
  ⟨req.xForwardedFor, req.remoteAddress, embedObj req.params, req.body.map embedObj,
    embedObj req.query⟩

/-! ## Sample inputs -/

/-- A request from `10.0.0.1` with the given query fields, no route
parameters and no body. -/
def queryRequest (query : Obj) : Request :=
  ⟨.undefined, .str "10.0.0.1", [], none, query⟩

/-- A valid STATUS request with one telemetry field. -/
def statusRequest : Request :=
  queryRequest [("password", .prim (.str "s3cret")), ("mode", .prim (.str "STATUS")),
    ("uptime", .prim (.str "42"))]

/-- The query `?password=s3cret&mode=STATUS&uptime[toString]=1`: the field
`uptime` is the object `{toString: '1'}`. -/
def objectFieldRequest : Request :=
  queryRequest [("password", .prim (.str "s3cret")), ("mode", .prim (.str "STATUS")),
    ("uptime", .obj [("toString", .prim (.str "1"))])]

/-- The query `?password=s3cret&mode[toString]=1`: the mode is the object
`{toString: '1'}`. -/
def objectModeRequest : Request :=
  queryRequest [("password", .prim (.str "s3cret")),
    ("mode", .obj [("toString", .prim (.str "1"))])]

/-- A valid STATUS request whose JSON body carries `uptime` as the boolean
`false`, `loopname` as the empty string and `serialnumber` as an array. -/
def falseFieldRequest : Request :=
  ⟨.undefined, .str "10.0.0.1", [],
    some [("password", .prim (.str "s3cret")), ("mode", .prim (.str "STATUS")),
      ("uptime", .prim (.bool false)), ("loopname", .prim (.str "")),
      ("serialnumber", .arr [.prim (.str "A1"), .prim (.str "B2")])], []⟩

/-- A valid request with the given mode string. -/
def modeRequest (mode : String) : Request :=
  queryRequest [("password", .prim (.str "s3cret")), ("mode", .prim (.str mode))]

/-- A request with nothing in any source. -/
def emptyRequest : Request :=
  ⟨.undefined, .str "10.0.0.1", [], none, []⟩

/-- A request with `password` as a route parameter, in the body and in the
query, and `mode` in the body and the query. -/
def threeSourceRequest : Request :=
  ⟨.undefined, .str "10.0.0.1", [("password", .prim (.str "from-route"))],
    some [("password", .prim (.str "from-body")), ("mode", .prim (.str "from-body"))],
    [("password", .prim (.str "from-query")), ("mode", .prim (.str "from-query")),
      ("uptime", .prim (.str "from-query"))]⟩

end Full

end Obvius

/-! # The compare summary (`src/client/app/utils/calculateCompare.ts`)

`getCompareChangeSummary` with the JavaScript library calls it makes.  A
finite number is given exactly, as a mantissa times a power of two, which is
what a double is; `translate` comes from `../utils/translate` and is a
parameter. -/

namespace CalculateCompare

/-- A JavaScript number: `NaN`, an infinity, or the finite value
`mantissa * 2 ^ exponent`.  The functions below treat finite values of
magnitude below `10 ^ 21`, the range in which `toFixed` writes fixed notation
and a number prints in plain decimal. -/
inductive JsNumber where
  | nan
  | posInf
  | negInf
  | finite (mantissa : Int) (exponent : Int)
  deriving DecidableEq, Repr

/-- The global function `isNaN` on a number. -/
def isNaN : JsNumber → Bool
  | .nan => true
  | _ => false

/-- The comparison `x < 0`. -/
def ltZero : JsNumber → Bool
  | .negInf => true
  | .finite m _ => decide (m < 0)
  | _ => false

/-- The integer nearest to `|mantissa * 2 ^ exponent| * 100`, the larger one
when two are equally near: the digits `toFixed(2)` writes. -/
def hundredths (mantissa exponent : Int) : Nat :=
  match exponent with
  | .ofNat e => mantissa.natAbs * 2 ^ e * 100
  | .negSucc e => (mantissa.natAbs * 100 * 2 + 2 ^ (e + 1)) / (2 * 2 ^ (e + 1))

/-- Decimal digits padded with zeros on the left to three characters. -/
def padDigits (digits : List Char) : List Char :=
  List.replicate (3 - digits.length) '0' ++ digits

/-- The method call `x.toFixed(2)`. -/
def toFixed2 : JsNumber → String
  | .nan => "NaN"
  | .posInf => "Infinity"
  | .negInf => "-Infinity"
  | .finite m e =>
    let digits := padDigits (Nat.repr (hundredths m e)).data
    (if m < 0 then "-" else "")
      ++ String.mk (digits.take (digits.length - 2)) ++ "."
      ++ String.mk (digits.drop (digits.length - 2))

/-- The characters of `s.replace('.', '')`: the first full stop is removed. -/
def removeFirstDot : List Char → List Char
  | [] => []
  | c :: rest => if c = '.' then rest else c :: removeFirstDot rest

/-- The method call `s.replace('.', '')`. -/
def replaceDot (s : String) : String :=
  ⟨removeFirstDot s.data⟩

/-- The method call `s.slice(1)`. -/
def slice1 (s : String) : String :=
  ⟨s.data.drop 1⟩

/-- The value of a run of decimal digits. -/
def digitsValue (digits : List Char) : Nat :=
  digits.foldl (fun acc c => acc * 10 + (c.toNat - '0'.toNat)) 0

/-- The global function `parseInt(s)` without a radix, for strings that do
not start with a hexadecimal prefix: leading white space, an optional sign,
then the longest run of decimal digits; `none` is `NaN`. -/
def parseInt (s : String) : Option Int :=
  let cs := s.data.dropWhile Char.isWhitespace
  let signed : Bool × List Char :=
    match cs with
    | '-' :: rest => (true, rest)
    | '+' :: rest => (false, rest)
    | _ => (false, cs)
  let digits := signed.2.takeWhile Char.isDigit
  if digits.isEmpty then none
  else if signed.1 then some (-(digitsValue digits : Int))
  else some (digitsValue digits : Int)

/-- A template literal's conversion of the number `parseInt` returned. -/
def numberToString : Option Int → String
  | none => "NaN"
  | some n => toString n

/-- The interface `ComparePeriodLabels`. -/
structure ComparePeriodLabels where
  current : String
  prev : String
  deriving DecidableEq, Repr

/-- The expression `parseInt(change.toFixed(2).replace('.', '').slice(1))`. -/
def percentOf (change : JsNumber) : Option Int :=
  parseInt (slice1 (replaceDot (toFixed2 change)))

/-- The function `getCompareChangeSummary(change, name, labels)`;
`toLocaleLowerCase` is taken on the letters `A`..`Z`. -/
def getCompareChangeSummary (translate : String → String) (change : JsNumber)
    (name : String) (labels : ComparePeriodLabels) : String :=
  if isNaN change then ""
  else
    let percent := percentOf change
    if ltZero change then
      name ++ " " ++ translate "has.used" ++ " " ++ numberToString percent ++ "% "
        ++ translate "less.energy" ++ " " ++ Obvius.toLowerCase labels.current
    else
      name ++ " " ++ translate "has.used" ++ " " ++ numberToString percent ++ "% "
        ++ translate "more.energy" ++ " " ++ Obvius.toLowerCase labels.current

/-- A sample of `translate`: the English phrases of the three keys used. -/
def sampleTranslate (key : String) : String :=
  if key = "has.used" then "has used"
  else if key = "less.energy" then "less energy"
  else if key = "more.energy" then "more energy"
  else key

/-- Sample labels of the period `Day`. -/
def dayLabels : ComparePeriodLabels := ⟨"Today", "Yesterday"⟩

end CalculateCompare

/-! # The graph reducer (`src/client/app/reducers/graph.js`)

The action type constants come from `../actions/graph` and the default time
interval from `TimeInterval.unbounded()`; both are parameters.  The values
held by a state or carried by an action are of an arbitrary type `V`. -/

namespace GraphReducer

/-- The state `State~Graph`. -/
structure GraphState (V : Type) where
  selectedMeters : V
  baselines : V
  timeInterval : V
  deriving DecidableEq, Repr

/-- The fields of an action the reducer reads. -/
structure Action (V : Type) where
  type : String
  meterIDs : V
  baselines : V
  timeInterval : V
  deriving DecidableEq, Repr

/-- The constants of `graphActions` the reducer switches on. -/
structure ActionTypes where
  UPDATE_SELECTED_METERS : String
  SET_GRAPH_ZOOM : String
  deriving DecidableEq, Repr

/-- The reducer `graph(state = defaultState, action)`; `none` is a call with
`state` undefined. -/
def graph {V : Type} (graphActions : ActionTypes) (defaultState : GraphState V)
    (state : Option (GraphState V)) (action : Action V) : GraphState V :=
  let state := state.getD defaultState
  if action.type = graphActions.UPDATE_SELECTED_METERS then
    { state with selectedMeters := action.meterIDs, baselines := action.baselines }
  else if action.type = graphActions.SET_GRAPH_ZOOM then
    { state with timeInterval := action.timeInterval }
  else
    state

/-- Sample action type constants. -/
def sampleActionTypes : ActionTypes := ⟨"UPDATE_SELECTED_METERS", "SET_GRAPH_ZOOM"⟩

end GraphReducer

/-! # The dashboard (`src/client/app/components/DashboardComponent.jsx`)

The choice of the chart container in `render`.  The component takes
`chartTypes` from `../reducers/graph` by a named import; a named import reads
the property of that name of the module's exports. -/

namespace Dashboard

open Obvius

/-- What a module exports under a name, or what an import binding holds. -/
inductive Binding where
  | undefined
  | function (name : String)
  | table (fields : Dict)
  deriving DecidableEq, Repr

/-- The exports of `reducers/graph.js`: its one export is the default export
of the function `graph`; `defaultState` is a module-local constant. -/
def graphExports : List (String × Binding) :=
  [("default", .function "graph")]

/-- The named import `import { name } from ...`. -/
def importNamed (exports : List (String × Binding)) (name : String) : Binding :=
  match exports.lookup name with
  | some b => b
  | none => .undefined

/-- The binding `chartTypes` of the component. -/
def chartTypes : Binding :=
  importNamed graphExports "chartTypes"

/-- The member read `b.key` for a key that is not a built-in property of a
function: reading a member of `undefined` throws a TypeError. -/
def member (b : Binding) (key : String) : Except JsError JsVal :=
  match b with
  | .undefined =>
    .error (.typeError ("Cannot read property \x27" ++ key ++ "\x27 of undefined"))
  | .function _ => .ok .undefined
  | .table fields => .ok (fields.get key)

/-- The chart containers the component imports. -/
inductive Chart where
  | LineChartContainer
  | MultiCompareChartContainer
  | BarChartContainer
  deriving DecidableEq, Repr

/-- The choice made in `render`, for a given `chartTypes` binding and the
prop `this.props.chartToRender`. -/
def pickChart (chartTypes : Binding) (chartToRender : JsVal) : Except JsError Chart :=
  match member chartTypes "line" with
  | .error e => .error e
  | .ok line =>
    if chartToRender = line then .ok .LineChartContainer
    else
      match member chartTypes "compare" with
      | .error e => .error e
      | .ok compare =>
        if chartToRender = compare then .ok .MultiCompareChartContainer
        else .ok .BarChartContainer

/-- The choice `render` makes with the binding the component has. -/
def render (chartToRender : JsVal) : Except JsError Chart :=
  pickChart chartTypes chartToRender

/-- A table of chart types as the component expects it. -/
def sampleChartTypes : Binding :=
  .table [("line", .str "line"), ("bar", .str "bar"), ("compare", .str "compare")]

end Dashboard

namespace Obvius

/-! ## Helper lemmas -/

theorem toLowerCase_password : toLowerCase "password" = "password" := by decide

theorem toLowerCase_mode : toLowerCase "mode" = "mode" := by decide

/-- A lookup that finds nothing returns whatever default it is given. -/
theorem param_of_undefined (req : Request) (name : String) (d : JsVal)
    (h : param req name .undefined = .undefined) : param req name d = d := by
  unfold param at h ⊢
  cases hb : req.body <;> simp only [hb] at h ⊢ <;> split_ifs at h ⊢ <;> simp_all

/-- A lookup that finds a value does not depend on the default. -/
theorem param_of_defined (req : Request) (name : String) (d : JsVal)
    (h : param req name .undefined ≠ .undefined) :
    param req name d = param req name .undefined := by
  unfold param at h ⊢
  cases hb : req.body <;> simp only [hb] at h ⊢ <;> split_ifs at h ⊢ <;> simp_all

theorem param_of_str (req : Request) (name : String) (d : JsVal) (s : String)
    (h : param req name .undefined = .str s) : param req name d = .str s := by
  rw [param_of_defined req name d (by rw [h]; simp), h]

theorem sent_failure (req : Request) (reason : String) (st : State) :
    (failure req reason st).sent = st.sent ++ [⟨406, failureBody reason⟩] := rfl

theorem log_failure (req : Request) (reason : String) (st : State) :
    (failure req reason st).log = st.log ++ [⟨.error,
      "Obvius protocol request from " ++ (requesterIp req).toStr
        ++ " failed due to " ++ reason⟩] := rfl

theorem sent_handleStatus (req : Request) (st : State) :
    (handleStatus req st).sent = st.sent ++ [⟨200, successBody ""⟩] := rfl

theorem log_handleStatus (req : Request) (st : State) :
    (handleStatus req st).log = st.log ++ [⟨.info, statusRecord req⟩] := rfl

theorem sent_logInfo (m : String) (st : State) : (logInfo m st).sent = st.sent := rfl

theorem log_logInfo (m : String) (st : State) :
    (logInfo m st).log = st.log ++ [⟨.info, m⟩] := rfl

/-- Once the password checks are passed the handler is its mode dispatch. -/
theorem routeHandler_of_valid (cfg : Config) (req : Request) (st : State) (s : String)
    (hs : s ≠ "") (hcfg : cfg.password = .str s)
    (hp : param req "password" .undefined = .str s) :
    routeHandler cfg req st =
      (let st := logInfo ("Received Obvious protocol request from "
          ++ (requesterIp req).toStr) st
       let mode := param req "mode" (.bool false)
       if mode = .bool false then
         failure req "Request must include mode parameter." st
       else if mode = .str MODE_STATUS then handleStatus req st
       else if mode = .str MODE_LOGFILE_UPLOAD then
         failure req "Logfile Upload Not Implemented" st
       else if mode = .str MODE_CONFIG_DOWNLOAD then
         failure req "Config Download Not Implemented" st
       else if mode = .str MODE_CONFIG_MANIFEST then
         failure req "Config Manifest Not Implemented" st
       else if mode = .str MODE_CONFIG_UPLOAD then
         failure req "Config Upload Not Implemented" st
       else if mode = .str MODE_TEST then failure req "Test Not Implemented" st
       else failure req ("Unknown mode \x27" ++ mode.toStr ++ "\x27") st) := by
  simp [routeHandler, hp, hcfg, JsVal.truthy, hs]

/-! ## Password checks -/

/-- C1: when no `password` is defined in the route parameters, in the body
fields or in the query fields, the handler sends exactly status 406 with the
body `<pre> password parameter is required. </pre>`, whatever else the request
carries. -/
theorem password_missing_response (cfg : Config) (req : Request) (st : State)
    (hp : req.params.get "password" = .undefined)
    (hb : ∀ b, req.body = some b → b.get "password" = .undefined)
    (hq : req.query.get "password" = .undefined) :
    (routeHandler cfg req st).sent
      = st.sent ++ [⟨406, "<pre> password parameter is required. </pre>"⟩] := by
  have h : param req "password" .undefined = .undefined := by
    unfold param
    rw [toLowerCase_password]
    cases hbody : req.body with
    | none => simp [hp, hq]
    | some b => simp [hp, hq, hb b hbody]
  simp [routeHandler, h, JsVal.truthy, sent_failure, sent_logInfo, failureBody]

/-- Witness for C1: a request that carries a mode but no password. -/
theorem password_missing_response_witness :
    (routeHandler sampleConfig noPasswordRequest emptyState).sent
      = emptyState.sent ++ [⟨406, "<pre> password parameter is required. </pre>"⟩] :=
  password_missing_response sampleConfig noPasswordRequest emptyState (by decide)
    (by intro b h; cases h) (by decide)

/-- C2, as stated, fails: a password that is present as the empty string and
differs from the secret is answered `password parameter is required.`, not
`password was not correct.`. -/
theorem empty_password_counterexample :
    param emptyPasswordRequest "password" .undefined = .str ""
    ∧ JsVal.str "" ≠ sampleConfig.password
    ∧ (routeHandler sampleConfig emptyPasswordRequest emptyState).sent
        = [⟨406, "<pre> password parameter is required. </pre>"⟩]
    ∧ (routeHandler sampleConfig emptyPasswordRequest emptyState).sent
        ≠ [⟨406, "<pre> password was not correct. </pre>"⟩] := by
  decide

/-- C2, amended: a password present with a non-empty string value that is not
the configured secret is answered status 406 with the body
`<pre> password was not correct. </pre>`; a password present as the empty
string is answered as a missing one. -/
theorem password_invalid_response (cfg : Config) (req : Request) (st : State) (p : String)
    (hp : param req "password" .undefined = .str p) (hne : cfg.password ≠ .str p) :
    (p ≠ "" → (routeHandler cfg req st).sent
        = st.sent ++ [⟨406, "<pre> password was not correct. </pre>"⟩])
    ∧ (p = "" → (routeHandler cfg req st).sent
        = st.sent ++ [⟨406, "<pre> password parameter is required. </pre>"⟩]) := by
  constructor
  · intro h
    simp [routeHandler, hp, JsVal.truthy, h, Ne.symm hne, sent_failure, sent_logInfo,
      failureBody]
  · intro h
    simp [routeHandler, hp, JsVal.truthy, h, sent_failure, sent_logInfo, failureBody]

/-- Witness for C2 amended: the password `guess` against the secret `s3cret`. -/
theorem password_invalid_response_witness :
    (routeHandler sampleConfig wrongPasswordRequest emptyState).sent
      = emptyState.sent ++ [⟨406, "<pre> password was not correct. </pre>"⟩] :=
  (password_invalid_response sampleConfig wrongPasswordRequest emptyState "guess"
    (by decide) (by decide)).1 (by decide)

/-! ## A missing mode -/

/-- C6: with a valid password and no `mode` defined in the route parameters,
the body fields or the query fields, the handler sends exactly status 406 with
the body `<pre> Request must include mode parameter. </pre>`. -/
theorem mode_missing_response (cfg : Config) (req : Request) (st : State) (s : String)
    (hs : s ≠ "") (hcfg : cfg.password = .str s)
    (hp : param req "password" .undefined = .str s)
    (hmp : req.params.get "mode" = .undefined)
    (hmb : ∀ b, req.body = some b → b.get "mode" = .undefined)
    (hmq : req.query.get "mode" = .undefined) :
    (routeHandler cfg req st).sent
      = st.sent ++ [⟨406, "<pre> Request must include mode parameter. </pre>"⟩] := by
  have h : param req "mode" (.bool false) = .bool false := by
    unfold param
    rw [toLowerCase_mode]
    cases hbody : req.body with
    | none => simp [hmp, hmq]
    | some b => simp [hmp, hmq, hmb b hbody]
  rw [routeHandler_of_valid cfg req st s hs hcfg hp]
  simp [h, sent_failure, sent_logInfo, failureBody]

/-- Witness for C6: the password in the body, no mode anywhere. -/
theorem mode_missing_response_witness :
    (routeHandler sampleConfig noModeRequest emptyState).sent
      = emptyState.sent ++ [⟨406, "<pre> Request must include mode parameter. </pre>"⟩] :=
  mode_missing_response sampleConfig noModeRequest emptyState "s3cret"
    (by decide) (by decide) (by decide) (by decide)
    (by intro b h; cases h; decide) (by decide)

/-! ## Order of the checks -/

/-- A left fold that only appends keeps the start of its initial string. -/
theorem foldl_append_prefix {α : Type} (f : α → String) (a : String) (l : List α) :
    ∀ b : String, ∃ t : String, l.foldl (fun s x => s ++ f x) (a ++ b) = a ++ t := by
  induction l with
  | nil => intro b; exact ⟨b, rfl⟩
  | cons x xs ih =>
    intro b
    obtain ⟨t, ht⟩ := ih (b ++ f x)
    exact ⟨t, by rw [List.foldl_cons, String.append_assoc, ht]⟩

/-- The record of `handleStatus` starts with `Handling request from `. -/
theorem statusRecord_prefix (req : Request) :
    ∃ t : String, statusRecord req = "Handling request from " ++ t := by
  unfold statusRecord
  rw [String.append_assoc]
  exact foldl_append_prefix _ _ _ _

/-- The entry line of the handler is never the record of `handleStatus`. -/
theorem received_ne_statusRecord (req : Request) (ip : String) :
    "Received Obvious protocol request from " ++ ip ≠ statusRecord req := by
  obtain ⟨t, ht⟩ := statusRecord_prefix req
  rw [ht]
  intro h
  have hd := congrArg String.data h
  simp [String.data_append] at hd

/-- C7: the checks run in the order password-missing, password-invalid,
mode-missing, mode-dispatch.  Whatever the mode parameter is, a password that
is missing (or otherwise falsy) is answered `password parameter is required.`
and a password that differs from the secret is answered
`password was not correct.`; and the info-level record of the STATUS handler
is among the entries the handler writes exactly when the password passed both
checks and the mode is `STATUS`. -/
theorem checks_in_order (cfg : Config) (req : Request) (st : State) :
    ((param req "password" .undefined).truthy = false →
        (routeHandler cfg req st).sent
          = st.sent ++ [⟨406, "<pre> password parameter is required. </pre>"⟩])
    ∧ ((param req "password" .undefined).truthy = true →
        param req "password" .undefined ≠ cfg.password →
        (routeHandler cfg req st).sent
          = st.sent ++ [⟨406, "<pre> password was not correct. </pre>"⟩])
    ∧ (⟨.info, statusRecord req⟩ ∈ (routeHandler cfg req st).log.drop st.log.length ↔
        ((param req "password" .undefined).truthy = true
          ∧ param req "password" .undefined = cfg.password
          ∧ param req "mode" (.bool false) = .str "STATUS")) := by
  refine ⟨?_, ?_, ?_⟩
  · intro h
    simp [routeHandler, h, sent_failure, sent_logInfo, failureBody]
  · intro h hne
    simp [routeHandler, h, hne, sent_failure, sent_logInfo, failureBody]
  · have hr := received_ne_statusRecord req (requesterIp req).toStr
    by_cases h1 : (param req "password" .undefined).truthy = true
    · by_cases h2 : param req "password" .undefined = cfg.password
      · by_cases h3 : param req "mode" (.bool false) = .str "STATUS"
        · simp [routeHandler, h1, ← h2, h3, MODE_STATUS, log_handleStatus, log_logInfo]
        · have h3a : param req "mode" (.bool false) ≠ .str MODE_STATUS := h3
          simp only [routeHandler, h1, ← h2, h3, and_false, true_and, iff_false]
          simp only [Bool.not_true, Bool.false_eq_true, if_false, ne_eq, not_true_eq_false,
            h3a]
          split_ifs <;>
            simp [log_failure, log_logInfo, Ne.symm hr]
      · simp [routeHandler, h1, h2, log_failure, log_logInfo, Ne.symm hr]
    · simp [routeHandler, h1, log_failure, log_logInfo, Ne.symm hr]

/-- Witness for C7: a wrong password with the mode STATUS is answered with
the password failure. -/
theorem checks_in_order_witness :
    (routeHandler sampleConfig wrongPasswordRequest emptyState).sent
      = emptyState.sent ++ [⟨406, "<pre> password was not correct. </pre>"⟩] :=
  (checks_in_order sampleConfig wrongPasswordRequest emptyState).2.1 (by decide) (by decide)

/-! ## The lowercasing middleware -/

/-- The first loop of the lowercasing middleware throws for every request, so
the middleware never reaches `next()`. -/
theorem lowercaseParams_throws (req : Request) (st : State) :
    lowercaseParams req st = (st, .error (.typeError "req.query is not iterable")) := rfl

/-- C9 fails on the code: for the STATUS request with capitalised keys the
lowercasing middleware throws in its first loop, the router sends nothing and
logs nothing, and no key becomes available in lower case: the handler, run on
the request as it stands, finds no password, while the same request with
lower-case keys is answered 200. -/
theorem mixed_case_request_not_folded :
    lowercaseParams mixedCaseRequest emptyState
        = (emptyState, .error (.typeError "req.query is not iterable"))
    ∧ router sampleConfig mixedCaseRequest emptyState
        = ⟨emptyState, some (.typeError "req.query is not iterable")⟩
    ∧ param mixedCaseRequest "mode" .undefined = .undefined
    ∧ (routeHandler sampleConfig mixedCaseRequest emptyState).sent
        = [⟨406, "<pre> password parameter is required. </pre>"⟩]
    ∧ (routeHandler sampleConfig statusRequest emptyState).sent
        = [⟨200, "<pre>\nSUCCESS\n  \"</pre>"⟩] :=
  ⟨rfl, by decide, by decide, by decide, by decide⟩

end Obvius

namespace Obvius

/-! ## The handler by authentication outcome -/

/-- A request whose password is missing is answered by the first branch. -/
theorem routeHandler_auth_missing (cfg : Config) (req : Request) (st : State)
    (h : authenticate cfg req = .missing) :
    routeHandler cfg req st = failure req "password parameter is required."
      (logInfo ("Received Obvious protocol request from " ++ (requesterIp req).toStr) st) := by
  unfold authenticate at h
  unfold routeHandler
  cases h1 : (param req "password" .undefined).truthy
  · simp only [Bool.not_false, if_true]
  · rw [h1] at h
    by_cases h2 : param req "password" .undefined = cfg.password <;>
      simp [h2] at h

/-- A request whose password is wrong is answered by the second branch. -/
theorem routeHandler_auth_invalid (cfg : Config) (req : Request) (st : State)
    (h : authenticate cfg req = .invalid) :
    routeHandler cfg req st = failure req "password was not correct."
      (logInfo ("Received Obvious protocol request from " ++ (requesterIp req).toStr) st) := by
  unfold authenticate at h
  unfold routeHandler
  cases h1 : (param req "password" .undefined).truthy
  · simp [h1] at h
  · rw [h1] at h
    by_cases h2 : param req "password" .undefined = cfg.password
    · simp [h2] at h
    · simp only [Bool.not_true, Bool.false_eq_true, if_false, ne_eq, h2, not_false_eq_true,
        if_true]

/-- A request whose password is valid is answered by the mode dispatch. -/
theorem routeHandler_auth_valid (cfg : Config) (req : Request) (st : State)
    (h : authenticate cfg req = .valid) :
    routeHandler cfg req st =
      (let st := logInfo ("Received Obvious protocol request from "
          ++ (requesterIp req).toStr) st
       let mode := param req "mode" (.bool false)
       if mode = .bool false then
         failure req "Request must include mode parameter." st
       else if mode = .str MODE_STATUS then handleStatus req st
       else if mode = .str MODE_LOGFILE_UPLOAD then
         failure req "Logfile Upload Not Implemented" st
       else if mode = .str MODE_CONFIG_DOWNLOAD then
         failure req "Config Download Not Implemented" st
       else if mode = .str MODE_CONFIG_MANIFEST then
         failure req "Config Manifest Not Implemented" st
       else if mode = .str MODE_CONFIG_UPLOAD then
         failure req "Config Upload Not Implemented" st
       else if mode = .str MODE_TEST then failure req "Test Not Implemented" st
       else failure req ("Unknown mode \x27" ++ mode.toStr ++ "\x27") st) := by
  unfold authenticate at h
  unfold routeHandler
  cases h1 : (param req "password" .undefined).truthy
  · simp [h1] at h
  · rw [h1] at h
    by_cases h2 : param req "password" .undefined = cfg.password
    · simp only [Bool.not_true, Bool.false_eq_true, if_false, ne_eq, h2, not_true_eq_false]
    · simp [h2] at h

/-! ## Requests that differ only in their password -/

/-- Lookups of a name other than `password` agree on requests that differ only
in their password. -/
theorem param_congr_off_password (r₁ r₂ : Request) (h : SameExceptPassword r₁ r₂)
    (name : String) (d : JsVal) (hn : toLowerCase name ≠ "password") :
    param r₁ name d = param r₂ name d := by
  obtain ⟨_, _, hp, hq, hb⟩ := h
  unfold param
  simp only [hp _ hn, hq _ hn]
  cases h₁ : r₁.body <;> cases h₂ : r₂.body <;> simp only [h₁, h₂] at hb ⊢
  rw [hb _ hn]

theorem statusLine_congr (r₁ r₂ : Request) (h : SameExceptPassword r₁ r₂)
    (name : String) (hn : toLowerCase name ≠ "password") :
    statusLine r₁ name = statusLine r₂ name := by
  unfold statusLine
  rw [param_congr_off_password r₁ r₂ h name .undefined hn]

/-- Two folds agree when their step functions agree on the members of the list. -/
theorem foldl_congr_mem {α β : Type} (f g : β → α → β) (l : List α)
    (h : ∀ b, ∀ a ∈ l, f b a = g b a) : ∀ b, l.foldl f b = l.foldl g b := by
  induction l with
  | nil => intro b; rfl
  | cons x xs ih =>
    intro b
    simp only [List.foldl_cons]
    rw [h b x (List.mem_cons_self _ _)]
    exact ih (fun b a ha => h b a (List.mem_cons_of_mem _ ha)) _

theorem paramNames_not_password : ∀ n ∈ paramNames, toLowerCase n ≠ "password" := by
  decide

theorem requesterIp_congr (r₁ r₂ : Request) (h : SameExceptPassword r₁ r₂) :
    requesterIp r₁ = requesterIp r₂ := by
  unfold requesterIp
  rw [h.1, h.2.1]

theorem statusRecord_congr (r₁ r₂ : Request) (h : SameExceptPassword r₁ r₂) :
    statusRecord r₁ = statusRecord r₂ := by
  unfold statusRecord
  rw [requesterIp_congr r₁ r₂ h]
  apply foldl_congr_mem
  intro b a ha
  rw [statusLine_congr r₁ r₂ h a (paramNames_not_password a ha)]

theorem failure_congr (r₁ r₂ : Request) (h : requesterIp r₁ = requesterIp r₂)
    (reason : String) (st : State) : failure r₁ reason st = failure r₂ reason st := by
  unfold failure
  rw [h]

theorem handleStatus_congr (r₁ r₂ : Request) (h : statusRecord r₁ = statusRecord r₂)
    (st : State) : handleStatus r₁ st = handleStatus r₂ st := by
  unfold handleStatus success
  rw [h]

/-- Two objects whose first entry is `password` and whose other entries are
the same agree off `password`. -/
theorem agreeOffPassword_cons (v₁ v₂ : JsVal) (rest : Dict) :
    AgreeOffPassword (("password", v₁) :: rest) (("password", v₂) :: rest) := by
  intro k hk
  have hb : (k == "password") = false := by simpa using hk
  simp [Dict.get, List.lookup, hb]

/-- C11: the password value is never logged.  None of the sixteen names of
the STATUS handler lower-cases to `password`; and two requests that differ
only in the values they carry under `password` and have the same
authentication outcome make the handler write the same log entries and send
the same responses. -/
theorem password_not_logged (cfg : Config) (r₁ r₂ : Request) (st : State)
    (hd : SameExceptPassword r₁ r₂) (ha : authenticate cfg r₁ = authenticate cfg r₂) :
    "password" ∉ paramNames.map toLowerCase
    ∧ (routeHandler cfg r₁ st).log = (routeHandler cfg r₂ st).log
    ∧ (routeHandler cfg r₁ st).sent = (routeHandler cfg r₂ st).sent := by
  have hip := requesterIp_congr r₁ r₂ hd
  have hrec := statusRecord_congr r₁ r₂ hd
  have hmode := param_congr_off_password r₁ r₂ hd "mode" (.bool false) (by decide)
  refine ⟨by decide, ?_⟩
  have key : routeHandler cfg r₁ st = routeHandler cfg r₂ st := by
    cases h₂ : authenticate cfg r₂ with
    | missing =>
      rw [routeHandler_auth_missing cfg r₁ st (ha.trans h₂),
        routeHandler_auth_missing cfg r₂ st h₂, hip, failure_congr r₁ r₂ hip]
    | invalid =>
      rw [routeHandler_auth_invalid cfg r₁ st (ha.trans h₂),
        routeHandler_auth_invalid cfg r₂ st h₂, hip, failure_congr r₁ r₂ hip]
    | valid =>
      rw [routeHandler_auth_valid cfg r₁ st (ha.trans h₂),
        routeHandler_auth_valid cfg r₂ st h₂]
      simp only [hip, hmode, failure_congr r₁ r₂ hip, handleStatus_congr r₁ r₂ hrec]
  rw [key]
  exact ⟨rfl, rfl⟩

/-- Witness for C11: the wrong passwords `guess` and `letmein`. -/
theorem password_not_logged_witness :
    (routeHandler sampleConfig wrongPasswordRequest emptyState).log
        = (routeHandler sampleConfig otherWrongPasswordRequest emptyState).log
    ∧ (routeHandler sampleConfig wrongPasswordRequest emptyState).sent
        = (routeHandler sampleConfig otherWrongPasswordRequest emptyState).sent :=
  (password_not_logged sampleConfig wrongPasswordRequest otherWrongPasswordRequest emptyState
    ⟨rfl, rfl, fun _ _ => rfl, agreeOffPassword_cons _ _ _, trivial⟩
    (by decide)).2

end Obvius

namespace Obvius

/-! ## The ways the handler ends -/

/-- The handler logs its entry line and then either fails with some reason or
runs the STATUS handler. -/
theorem routeHandler_cases (cfg : Config) (req : Request) (st : State) :
    (∃ reason, routeHandler cfg req st = failure req reason
        (logInfo ("Received Obvious protocol request from " ++ (requesterIp req).toStr) st))
    ∨ routeHandler cfg req st = handleStatus req
        (logInfo ("Received Obvious protocol request from " ++ (requesterIp req).toStr) st) := by
  generalize hx : routeHandler cfg req st = x
  unfold routeHandler at hx
  simp only [] at hx
  split_ifs at hx <;> subst hx
  all_goals first
    | exact Or.inr (by with_reducible rfl)
    | exact Or.inl ⟨_, by with_reducible rfl⟩

/-! ## Statelessness -/

theorem logInfo_append (m : String) (s x : State) :
    logInfo m (s.append x) = s.append (logInfo m x) := by
  simp [logInfo, State.append]

theorem failure_append (req : Request) (reason : String) (s x : State) :
    failure req reason (s.append x) = s.append (failure req reason x) := by
  simp [failure, logError, send, State.append]

theorem handleStatus_append (req : Request) (s x : State) :
    handleStatus req (s.append x) = s.append (handleStatus req x) := by
  simp [handleStatus, success, logInfo, send, State.append]

/-- The handler only appends: what it adds does not depend on what the log
and the response list already hold. -/
theorem routeHandler_append (cfg : Config) (req : Request) (s x : State) :
    routeHandler cfg req (s.append x) = s.append (routeHandler cfg req x) := by
  unfold routeHandler
  simp only [apply_ite (State.append s), logInfo_append, failure_append, handleStatus_append]

theorem append_emptyState (s : State) : s.append emptyState = s := by
  simp [State.append, emptyState]

/-- A valid STATUS request handled on an empty state is answered 200. -/
theorem sent_status_emptyState (cfg : Config) (req : Request)
    (ha : authenticate cfg req = .valid)
    (hm : param req "mode" (.bool false) = .str "STATUS") :
    (routeHandler cfg req emptyState).sent = [⟨200, "<pre>\nSUCCESS\n  \"</pre>"⟩] := by
  rw [routeHandler_auth_valid cfg req emptyState ha]
  simp [hm, MODE_STATUS, sent_handleStatus, sent_logInfo, emptyState]
  decide

/-- C13: handling is stateless.  What the handler appends to the log and
sends is the same whatever the log and the response list held before; so a
valid STATUS request handled twice, each time on a fresh response object, is
answered 200 both times and appends the same entries both times.  The
configuration is an argument the handler only reads. -/
theorem handling_stateless (cfg : Config) (req : Request) (st : State) :
    (routeHandler cfg req st).log = st.log ++ (routeHandler cfg req emptyState).log
    ∧ (routeHandler cfg req st).sent = st.sent ++ (routeHandler cfg req emptyState).sent
    ∧ (authenticate cfg req = .valid → param req "mode" (.bool false) = .str "STATUS" →
        (routeHandler cfg req ⟨st.log, []⟩).sent = [⟨200, "<pre>\nSUCCESS\n  \"</pre>"⟩]
        ∧ (routeHandler cfg req ⟨(routeHandler cfg req ⟨st.log, []⟩).log, []⟩).sent
            = [⟨200, "<pre>\nSUCCESS\n  \"</pre>"⟩]
        ∧ (routeHandler cfg req ⟨(routeHandler cfg req ⟨st.log, []⟩).log, []⟩).log
            = st.log ++ (routeHandler cfg req emptyState).log
                ++ (routeHandler cfg req emptyState).log) := by
  have key : ∀ s : State, routeHandler cfg req s
      = s.append (routeHandler cfg req emptyState) := by
    intro s
    rw [← routeHandler_append, append_emptyState]
  refine ⟨by rw [key st]; rfl, by rw [key st]; rfl, ?_⟩
  intro ha hm
  have h200 := sent_status_emptyState cfg req ha hm
  refine ⟨?_, ?_, ?_⟩
  · rw [key ⟨st.log, []⟩]
    simp [State.append, h200]
  · rw [key ⟨_, []⟩]
    simp [State.append, h200]
  · rw [key ⟨_, []⟩, key ⟨st.log, []⟩]
    simp [State.append]

/-- Witness for C13: the sample STATUS request handled twice. -/
theorem handling_stateless_witness :
    (routeHandler sampleConfig statusRequest ⟨emptyState.log, []⟩).sent
        = [⟨200, "<pre>\nSUCCESS\n  \"</pre>"⟩]
    ∧ (routeHandler sampleConfig statusRequest
          ⟨(routeHandler sampleConfig statusRequest ⟨emptyState.log, []⟩).log, []⟩).sent
        = [⟨200, "<pre>\nSUCCESS\n  \"</pre>"⟩] :=
  ⟨((handling_stateless sampleConfig statusRequest emptyState).2.2
      (by decide) (by decide)).1,
   ((handling_stateless sampleConfig statusRequest emptyState).2.2
      (by decide) (by decide)).2.1⟩

end Obvius

namespace Obvius

/-! ## The STATUS record -/

/-- The record of `handleStatus` is its first line followed by further text. -/
theorem statusRecord_header (req : Request) :
    ∃ lines : String, statusRecord req
      = "Handling request from " ++ (requesterIp req).toStr ++ "\n" ++ lines := by
  unfold statusRecord
  have h := foldl_append_prefix (statusLine req)
    ("Handling request from " ++ (requesterIp req).toStr ++ "\n") paramNames ""
  rw [String.append_empty] at h
  exact h

/-! ## The requester identity -/

/-- C15, as stated, fails: with an `x-forwarded-for` header that is present
and empty, the entries name the connection address `10.0.0.1`, not the value
of the header. -/
theorem empty_forwarded_counterexample :
    emptyForwardedRequest.xForwardedFor = .str ""
    ∧ (routeHandler sampleConfig emptyForwardedRequest emptyState).log.head?
        = some ⟨.info, "Received Obvious protocol request from 10.0.0.1"⟩
    ∧ (routeHandler sampleConfig emptyForwardedRequest emptyState).log.head?
        ≠ some ⟨.info, "Received Obvious protocol request from " ++ ""⟩ := by
  decide

/-- C15, amended: the identity in every log entry of a request is the value
of the `x-forwarded-for` header when that header is present and not empty,
and the connection's remote address when the header is absent or empty; the
entry line, the failure line and the STATUS record of one request all carry
that one identity. -/
theorem requester_identity (cfg : Config) (req : Request) (st : State) :
    (∀ h : String, req.xForwardedFor = .str h → h ≠ "" → (requesterIp req).toStr = h)
    ∧ (req.xForwardedFor = .undefined ∨ req.xForwardedFor = .str "" →
        (requesterIp req).toStr = req.remoteAddress.toStr)
    ∧ ∃ second : LogEntry,
        (routeHandler cfg req st).log
          = st.log ++ [⟨.info, "Received Obvious protocol request from "
              ++ (requesterIp req).toStr⟩, second]
        ∧ ((∃ reason, second = ⟨.error, "Obvius protocol request from "
              ++ (requesterIp req).toStr ++ " failed due to " ++ reason⟩)
          ∨ (∃ lines, second = ⟨.info, "Handling request from "
              ++ (requesterIp req).toStr ++ "\n" ++ lines⟩)) := by
  refine ⟨?_, ?_, ?_⟩
  · intro h hx hne
    simp [requesterIp, jsOr, hx, JsVal.truthy, hne, JsVal.toStr]
  · rintro (hx | hx) <;> simp [requesterIp, jsOr, hx, JsVal.truthy]
  · rcases routeHandler_cases cfg req st with ⟨reason, h⟩ | h
    · refine ⟨_, ?_, Or.inl ⟨reason, rfl⟩⟩
      rw [h, log_failure, log_logInfo, List.append_assoc]
      rfl
    · obtain ⟨lines, hl⟩ := statusRecord_header req
      refine ⟨_, ?_, Or.inr ⟨lines, rfl⟩⟩
      rw [h, log_handleStatus, log_logInfo, List.append_assoc, hl]
      rfl

/-- Witness for C15 amended: a request that came through a proxy. -/
theorem requester_identity_witness :
    (requesterIp forwardedRequest).toStr = "192.0.2.7" :=
  (requester_identity sampleConfig forwardedRequest emptyState).1 "192.0.2.7" rfl (by decide)

/-! ## An empty or unset secret -/

/-- C17: when the configured secret is the empty string or `undefined`, no
request authenticates: whatever password the request carries, the response is
one of the two password failures with status 406, and the STATUS record is
not written. -/
theorem empty_secret_fails_closed (cfg : Config) (req : Request) (st : State)
    (h : cfg.password = .str "" ∨ cfg.password = .undefined) :
    authenticate cfg req ≠ .valid
    ∧ ((routeHandler cfg req st).sent
          = st.sent ++ [⟨406, "<pre> password parameter is required. </pre>"⟩]
      ∨ (routeHandler cfg req st).sent
          = st.sent ++ [⟨406, "<pre> password was not correct. </pre>"⟩])
    ∧ ⟨.info, statusRecord req⟩ ∉ (routeHandler cfg req st).log.drop st.log.length := by
  have hfalsy : cfg.password.truthy = false := by
    rcases h with h | h <;> simp [h, JsVal.truthy]
  have hnv : authenticate cfg req ≠ .valid := by
    unfold authenticate
    cases h1 : (param req "password" .undefined).truthy
    · simp
    · by_cases h2 : param req "password" .undefined = cfg.password
      · rw [h2, hfalsy] at h1
        exact absurd h1 (by decide)
      · simp [h2]
  have hr := received_ne_statusRecord req (requesterIp req).toStr
  refine ⟨hnv, ?_⟩
  cases ha : authenticate cfg req with
  | valid => exact absurd ha hnv
  | missing =>
    rw [routeHandler_auth_missing cfg req st ha]
    refine ⟨Or.inl ?_, ?_⟩
    · simp [sent_failure, sent_logInfo, failureBody]
    · simp [log_failure, log_logInfo, Ne.symm hr]
  | invalid =>
    rw [routeHandler_auth_invalid cfg req st ha]
    refine ⟨Or.inr ?_, ?_⟩
    · simp [sent_failure, sent_logInfo, failureBody]
    · simp [log_failure, log_logInfo, Ne.symm hr]

/-- Witness for C17: the empty secret against a request with an empty
password. -/
theorem empty_secret_fails_closed_witness :
    authenticate emptySecretConfig emptyPasswordRequest ≠ .valid :=
  (empty_secret_fails_closed emptySecretConfig emptyPasswordRequest emptyState
    (Or.inl rfl)).1

end Obvius

/-! # Theorems on the client modules -/

namespace CalculateCompare

/-- C16 fails on the code: for an increase of 150 % (`change = 1.5`) the
summary prints `50%`, because `slice(1)` removes the leading digit of
`1.50`; an increase of 99.609375 % is rounded to `1.00` and printed as `0%`,
and an infinite change prints `NaN%`.  Decreases, and increases that round
to less than 1, are printed as the claim says. -/
theorem summary_drops_leading_digit :
    toFixed2 (.finite 3 (-1)) = "1.50"
    ∧ percentOf (.finite 3 (-1)) = some 50
    ∧ getCompareChangeSummary sampleTranslate (.finite 3 (-1)) "Meter A" dayLabels
        = "Meter A has used 50% more energy today"
    ∧ getCompareChangeSummary sampleTranslate (.finite (-3) (-1)) "Meter A" dayLabels
        = "Meter A has used 150% less energy today"
    ∧ getCompareChangeSummary sampleTranslate (.finite 1 (-2)) "Meter A" dayLabels
        = "Meter A has used 25% more energy today"
    ∧ getCompareChangeSummary sampleTranslate (.finite 255 (-8)) "Meter A" dayLabels
        = "Meter A has used 0% more energy today"
    ∧ getCompareChangeSummary sampleTranslate .posInf "Meter A" dayLabels
        = "Meter A has used NaN% more energy today"
    ∧ getCompareChangeSummary sampleTranslate .nan "Meter A" dayLabels = "" := by
  decide

end CalculateCompare

namespace GraphReducer

/-- C18: the reducer changes only the fields its action names.  With the two
action type constants distinct, UPDATE_SELECTED_METERS sets `selectedMeters`
and `baselines` from the action and keeps `timeInterval`; SET_GRAPH_ZOOM sets
`timeInterval` from the action and keeps the other two; any other type
returns the state as it is; and applying an action twice gives what applying
it once gives. -/
theorem graph_changes_named_fields {V : Type} (graphActions : ActionTypes)
    (defaultState s : GraphState V) (a : Action V)
    (hne : graphActions.UPDATE_SELECTED_METERS ≠ graphActions.SET_GRAPH_ZOOM) :
    (a.type = graphActions.UPDATE_SELECTED_METERS →
        graph graphActions defaultState (some s) a
          = ⟨a.meterIDs, a.baselines, s.timeInterval⟩)
    ∧ (a.type = graphActions.SET_GRAPH_ZOOM →
        graph graphActions defaultState (some s) a
          = ⟨s.selectedMeters, s.baselines, a.timeInterval⟩)
    ∧ (a.type ≠ graphActions.UPDATE_SELECTED_METERS →
        a.type ≠ graphActions.SET_GRAPH_ZOOM →
        graph graphActions defaultState (some s) a = s)
    ∧ graph graphActions defaultState (some (graph graphActions defaultState (some s) a)) a
        = graph graphActions defaultState (some s) a := by
  refine ⟨?_, ?_, ?_, ?_⟩
  · intro h
    simp [graph, h]
  · intro h
    simp [graph, h, Ne.symm hne]
  · intro h1 h2
    simp [graph, h1, h2]
  · unfold graph
    simp only [Option.getD_some]
    split_ifs <;> rfl

/-- Witness for C18: a zoom action on a state of lists of numbers. -/
theorem graph_changes_named_fields_witness :
    graph sampleActionTypes (⟨[], [], []⟩ : GraphState (List Nat)) (some ⟨[1, 2], [7], [0, 10]⟩)
        ⟨"SET_GRAPH_ZOOM", [], [], [3, 4]⟩
      = ⟨[1, 2], [7], [3, 4]⟩ :=
  (graph_changes_named_fields sampleActionTypes ⟨[], [], []⟩ ⟨[1, 2], [7], [0, 10]⟩
    ⟨"SET_GRAPH_ZOOM", [], [], [3, 4]⟩ (by decide)).2.1 rfl

end GraphReducer

namespace Dashboard

open Obvius

/-- With a table as `chartTypes`, the choice is total: line for the table's
`line`, compare for its `compare`, bar otherwise. -/
theorem pickChart_table (fields : Dict) (chartToRender : JsVal) :
    pickChart (.table fields) chartToRender
      = .ok (if chartToRender = fields.get "line" then .LineChartContainer
          else if chartToRender = fields.get "compare" then .MultiCompareChartContainer
          else .BarChartContainer) := by
  simp only [pickChart, member]
  split_ifs <;> rfl

/-- C19 fails on the code: `reducers/graph.js` exports no `chartTypes`, so
the component's binding is `undefined`, and for every value of the prop
`chartToRender` the first comparison of `render` throws a TypeError instead
of choosing a chart container. -/
theorem render_throws (chartToRender : JsVal) :
    chartTypes = .undefined
    ∧ render chartToRender
        = .error (.typeError "Cannot read property \x27line\x27 of undefined")
    ∧ render (.str "line")
        = .error (.typeError "Cannot read property \x27line\x27 of undefined") :=
  ⟨rfl, rfl, rfl⟩

end Dashboard

/-! # Theorems on the route over every parsed value -/

namespace Obvius.Full

/-! ## Helper lemmas -/

theorem asPrim_eq_some (v : JsValue) (p : JsVal) : v.asPrim = some p ↔ v = .prim p := by
  cases v <;> simp [JsValue.asPrim]

theorem sentOf_append (t u : Trace) : sentOf (t ++ u) = sentOf t ++ sentOf u := by
  simp [sentOf, List.filterMap_append]

theorem logOf_append (t u : Trace) : logOf (t ++ u) = logOf t ++ logOf u := by
  simp [logOf, List.filterMap_append]

theorem sentOf_logInfo (m : String) (t : Trace) : sentOf (logInfo m t) = sentOf t := by
  simp [logInfo, sentOf_append, sentOf]

theorem sentOf_failure (req : Request) (reason : String) (t : Trace) :
    sentOf (failure req reason t) = sentOf t ++ [⟨406, failureBody reason⟩] := by
  simp [failure, logError, send, sentOf_append, sentOf]

theorem sentOf_success (req : Request) (comment : String) (t : Trace) :
    sentOf (success req comment t) = sentOf t ++ [⟨200, successBody comment⟩] := by
  simp [success, send, sentOf_append, sentOf]

/-- The trace `failure` leaves: the error entry, then the response. -/
theorem failure_trace (req : Request) (reason : String) (t : Trace) :
    failure req reason t = t ++ [.logged ⟨.error, "Obvius protocol request from "
        ++ (requesterIp req).toStr ++ " failed due to " ++ reason⟩,
      .sent ⟨406, failureBody reason⟩] := by
  simp [failure, logError, send]

/-- Once the password checks are passed the handler is its mode dispatch. -/
theorem dispatch_of_valid (cfg : Config) (req : Request) (t : Trace) (s : String)
    (hs : s ≠ "") (hcfg : cfg.password = .str s)
    (hp : param req "password" undefined = .prim (.str s)) :
    routeHandler cfg req t =
      (let t := logInfo ("Received Obvious protocol request from "
          ++ (requesterIp req).toStr) t
       let mode := param req "mode" (.prim (.bool false))
       if mode.asPrim = some (.bool false) then
         ⟨failure req "Request must include mode parameter." t, none⟩
       else if mode.asPrim = some (.str MODE_STATUS) then handleStatus req t
       else if mode.asPrim = some (.str MODE_LOGFILE_UPLOAD) then
         ⟨failure req "Logfile Upload Not Implemented" t, none⟩
       else if mode.asPrim = some (.str MODE_CONFIG_DOWNLOAD) then
         ⟨failure req "Config Download Not Implemented" t, none⟩
       else if mode.asPrim = some (.str MODE_CONFIG_MANIFEST) then
         ⟨failure req "Config Manifest Not Implemented" t, none⟩
       else if mode.asPrim = some (.str MODE_CONFIG_UPLOAD) then
         ⟨failure req "Config Upload Not Implemented" t, none⟩
       else if mode.asPrim = some (.str MODE_TEST) then
         ⟨failure req "Test Not Implemented" t, none⟩
       else
         match mode.toStr with
         | .error e => ⟨t, some e⟩
         | .ok text => ⟨failure req ("Unknown mode \x27" ++ text ++ "\x27") t, none⟩) := by
  simp [routeHandler, hp, hcfg, JsValue.truthy, JsVal.truthy, JsValue.asPrim, hs]

/-- A lookup that finds a value does not depend on the default. -/
theorem lookup_of_defined (req : Request) (name : String) (d : JsValue)
    (h : (param req name undefined).asPrim ≠ some .undefined) :
    param req name d = param req name undefined := by
  unfold param paramWith at h ⊢
  cases hb : req.body <;> simp only [hb] at h ⊢ <;> split_ifs at h ⊢ <;>
    first | rfl | exact absurd rfl h

theorem lookup_of_str (req : Request) (name : String) (d : JsValue) (s : String)
    (h : param req name undefined = .prim (.str s)) : param req name d = .prim (.str s) := by
  rw [lookup_of_defined req name d (by rw [h]; simp [JsValue.asPrim]), h]

/-- The loop of `handleStatus` succeeds when each of its lines does, and then
appends the lines in order. -/
theorem statusLoop_of_lines (req : Request) :
    ∀ (names : List String) (lines : List String) (s : String),
      List.Forall₂ (fun n line => statusLine req n = .ok line) names lines →
      statusLoop req names s = .ok (lines.foldl (· ++ ·) s) := by
  intro names
  induction names with
  | nil =>
    intro lines s h
    cases h
    rfl
  | cons n rest ih =>
    intro lines s h
    cases h with
    | cons hline hrest =>
      simp only [statusLoop, hline, List.foldl_cons]
      exact ih _ _ hrest

/-- The loop of `handleStatus` throws when one of its lines does. -/
theorem statusLoop_of_error (req : Request) :
    ∀ (names : List String) (s : String),
      (∃ n ∈ names, ∃ e, statusLine req n = .error e) →
      ∃ e, statusLoop req names s = .error e := by
  intro names
  induction names with
  | nil =>
    rintro s ⟨n, hn, _⟩
    cases hn
  | cons n rest ih =>
    rintro s ⟨m, hm, e, he⟩
    cases hline : statusLine req n with
    | error e' => exact ⟨e', by simp [statusLoop, hline]⟩
    | ok line =>
      simp only [statusLoop, hline]
      rcases List.mem_cons.mp hm with rfl | hm'
      · rw [he] at hline
        cases hline
      · exact ih _ ⟨m, hm', e, he⟩

theorem convertible_iff (v : JsValue) :
    v.convertible = true ↔ ∃ text, v.toStr = .ok text := by
  unfold JsValue.convertible
  cases v.toStr <;> simp

/-- Every line whose value converts to a string is produced. -/
theorem statusLine_ok_of_toStr (req : Request) (n : String)
    (h : (param req n undefined).convertible = true) :
    ∃ line, statusLine req n = .ok line := by
  obtain ⟨text, ht⟩ := (convertible_iff _).mp h
  unfold statusLine
  split_ifs
  · exact ⟨_, by rw [ht]⟩
  · exact ⟨_, rfl⟩

/-- The loop succeeds when every value it prints converts to a string. -/
theorem statusLoop_ok (req : Request) :
    ∀ (names : List String) (s : String),
      (∀ n ∈ names, (param req n undefined).convertible = true) →
      ∃ s', statusLoop req names s = .ok s' := by
  intro names
  induction names with
  | nil => intro s _; exact ⟨s, rfl⟩
  | cons n rest ih =>
    intro s h
    obtain ⟨line, hl⟩ := statusLine_ok_of_toStr req n (h n (List.mem_cons_self _ _))
    simp only [statusLoop, hl]
    exact ih _ (fun m hm => h m (List.mem_cons_of_mem _ hm))

/-- The handler logs its entry line and then ends in one of three ways: a
failure with some reason, the STATUS record and a success, or an exception
with nothing further written. -/
theorem handler_endings (cfg : Config) (req : Request) (t : Trace) :
    (∃ reason, routeHandler cfg req t = ⟨failure req reason
        (logInfo ("Received Obvious protocol request from " ++ (requesterIp req).toStr) t),
        none⟩)
    ∨ (∃ s, statusRecord req = .ok s ∧ routeHandler cfg req t = ⟨success req ""
        (logInfo s (logInfo ("Received Obvious protocol request from "
          ++ (requesterIp req).toStr) t)), none⟩)
    ∨ (∃ e, routeHandler cfg req t = ⟨logInfo ("Received Obvious protocol request from "
        ++ (requesterIp req).toStr) t, some e⟩) := by
  generalize hx : routeHandler cfg req t = x
  unfold routeHandler at hx
  simp only [] at hx
  split_ifs at hx
  all_goals try (subst hx; exact Or.inl ⟨_, rfl⟩)
  · unfold handleStatus at hx
    cases hs : statusRecord req with
    | error e =>
      rw [hs] at hx
      subst hx
      exact Or.inr (Or.inr ⟨e, rfl⟩)
    | ok s =>
      rw [hs] at hx
      subst hx
      exact Or.inr (Or.inl ⟨s, rfl, rfl⟩)
  · cases hm : (param req "mode" (.prim (.bool false))).toStr with
    | error e =>
      rw [hm] at hx
      subst hx
      exact Or.inr (Or.inr ⟨e, rfl⟩)
    | ok text =>
      rw [hm] at hx
      subst hx
      exact Or.inl ⟨_, rfl⟩

/-! ## The STATUS handler answers 200 -/

/-- C3, as stated, fails: for `?password=s3cret&mode=STATUS&uptime[toString]=1`
the password is the secret and the mode is `STATUS`, but the value of `uptime`
is an object without a string conversion: the template literal of the loop
throws, and the handler ends with an uncaught TypeError after its entry line,
with no response sent. -/
theorem object_field_counterexample :
    param objectFieldRequest "password" undefined = .prim (.str "s3cret")
    ∧ sampleConfig.password = .str "s3cret"
    ∧ param objectFieldRequest "mode" undefined = .prim (.str "STATUS")
    ∧ routeHandler sampleConfig objectFieldRequest []
        = ⟨[.logged ⟨.info, "Received Obvious protocol request from 10.0.0.1"⟩],
            some (.typeError "Cannot convert object to primitive value")⟩
    ∧ sentOf (routeHandler sampleConfig objectFieldRequest []).trace = [] :=
  ⟨rfl, rfl, rfl, by decide, by decide⟩

/-- C3, amended: with a password equal to the non-empty secret and the mode
`STATUS`, whichever of the sixteen fields are present, the handler sends
status 200 with the success template filled with an empty comment, provided
every value found for one of the sixteen names converts to a string; when the
handler ends with an exception instead, it has sent nothing. -/
theorem status_success_when_convertible (cfg : Config) (req : Request) (t : Trace) (s : String)
    (hs : s ≠ "") (hcfg : cfg.password = .str s)
    (hp : param req "password" undefined = .prim (.str s))
    (hm : param req "mode" undefined = .prim (.str "STATUS")) :
    ((∀ n ∈ paramNames, (param req n undefined).convertible = true) →
        (routeHandler cfg req t).uncaught = none
        ∧ sentOf (routeHandler cfg req t).trace
            = sentOf t ++ [⟨200, "<pre>\nSUCCESS\n  \"</pre>"⟩])
    ∧ ((routeHandler cfg req t).uncaught ≠ none →
        sentOf (routeHandler cfg req t).trace = sentOf t) := by
  have hrh : routeHandler cfg req t = handleStatus req
      (logInfo ("Received Obvious protocol request from " ++ (requesterIp req).toStr) t) := by
    rw [dispatch_of_valid cfg req t s hs hcfg hp]
    simp [lookup_of_str req "mode" (.prim (.bool false)) "STATUS" hm, JsValue.asPrim,
      MODE_STATUS]
  rw [hrh]
  unfold handleStatus
  constructor
  · intro hconv
    obtain ⟨s', hs'⟩ := statusLoop_ok req paramNames
      ("Handling request from " ++ (requesterIp req).toStr ++ "\n") hconv
    have hrec : statusRecord req = .ok s' := hs'
    simp only [hrec, sentOf_success, sentOf_logInfo, true_and]
    rfl
  · cases hrec : statusRecord req with
    | error e => intro _; simp [sentOf_logInfo]
    | ok s' => intro h; simp at h

/-- Witness for C3 amended: the sample STATUS request, whose values are
strings. -/
theorem status_success_when_convertible_witness :
    (routeHandler sampleConfig statusRequest []).uncaught = none
    ∧ sentOf (routeHandler sampleConfig statusRequest []).trace
        = sentOf [] ++ [⟨200, "<pre>\nSUCCESS\n  \"</pre>"⟩] :=
  (status_success_when_convertible sampleConfig statusRequest [] "s3cret"
    (by decide) rfl rfl rfl).1 (by decide)

/-! ## Unknown and unimplemented modes -/

/-- C4: with a password equal to the non-empty secret and a mode string that
is none of STATUS, LOGFILEUPLOAD, CONFIGFILEMANIFEST, CONFIGFILEUPLOAD,
CONFIGFILEDOWNLOAD, MODE_TEST, the handler sends status 406 with the body
`<pre> Unknown mode '<value>' </pre>`, the value unchanged; the comparison is
case-sensitive: `status` and `Status` are answered as unknown modes. -/
theorem unknown_mode_literal_response (cfg : Config) (req : Request) (t : Trace) (s m : String)
    (hs : s ≠ "") (hcfg : cfg.password = .str s)
    (hp : param req "password" undefined = .prim (.str s))
    (hm : param req "mode" undefined = .prim (.str m))
    (hk : m ∉ ["STATUS", "LOGFILEUPLOAD", "CONFIGFILEMANIFEST", "CONFIGFILEUPLOAD",
      "CONFIGFILEDOWNLOAD", "MODE_TEST"]) :
    ((routeHandler cfg req t).uncaught = none
      ∧ sentOf (routeHandler cfg req t).trace
          = sentOf t ++ [⟨406, "<pre> Unknown mode \x27" ++ m ++ "\x27 </pre>"⟩])
    ∧ sentOf (routeHandler sampleConfig (modeRequest "status") []).trace
        = [⟨406, "<pre> Unknown mode \x27status\x27 </pre>"⟩]
    ∧ sentOf (routeHandler sampleConfig (modeRequest "Status") []).trace
        = [⟨406, "<pre> Unknown mode \x27Status\x27 </pre>"⟩] := by
  refine ⟨?_, by decide, by decide⟩
  rw [dispatch_of_valid cfg req t s hs hcfg hp]
  simp only [List.mem_cons, List.mem_singleton, not_or, List.not_mem_nil, or_false] at hk
  obtain ⟨h1, h2, h3, h4, h5, h6⟩ := hk
  simp [lookup_of_str req "mode" (.prim (.bool false)) m hm, JsValue.asPrim, JsValue.toStr,
    MODE_STATUS, MODE_LOGFILE_UPLOAD, MODE_CONFIG_MANIFEST, MODE_CONFIG_UPLOAD,
    MODE_CONFIG_DOWNLOAD, MODE_TEST, h1, h2, h3, h4, h5, h6, sentOf_failure, sentOf_logInfo,
    failureBody, JsVal.toStr, String.append_assoc]
  rw [← String.append_assoc]
  rfl

/-- Witness for C4: the mode `statuS`. -/
theorem unknown_mode_literal_response_witness :
    (routeHandler sampleConfig (modeRequest "statuS") []).uncaught = none
    ∧ sentOf (routeHandler sampleConfig (modeRequest "statuS") []).trace
        = sentOf [] ++ [⟨406, "<pre> Unknown mode \x27" ++ "statuS" ++ "\x27 </pre>"⟩] :=
  (unknown_mode_literal_response sampleConfig (modeRequest "statuS") [] "s3cret" "statuS"
    (by decide) rfl rfl rfl (by decide)).1

/-- The body of an unknown-mode failure starts `<pre> U`. -/
theorem unknown_body_data (m : String) :
    ("<pre> Unknown mode \x27" ++ m ++ "\x27 </pre>").data
      = '<' :: 'p' :: 'r' :: 'e' :: '>' :: ' ' :: 'U'
          :: ("nknown mode \x27" ++ m ++ "\x27 </pre>").data := by
  simp [String.data_append]

/-- The response to a valid request with one of the unimplemented modes. -/
theorem not_implemented_of_mode (cfg : Config) (req : Request) (t : Trace) (s : String)
    (hs : s ≠ "") (hcfg : cfg.password = .str s)
    (hp : param req "password" undefined = .prim (.str s)) (m reason : String)
    (hmr : (m, reason) ∈ [("LOGFILEUPLOAD", "Logfile Upload Not Implemented"),
      ("CONFIGFILEMANIFEST", "Config Manifest Not Implemented"),
      ("CONFIGFILEUPLOAD", "Config Upload Not Implemented"),
      ("CONFIGFILEDOWNLOAD", "Config Download Not Implemented"),
      ("MODE_TEST", "Test Not Implemented")])
    (hm : param req "mode" undefined = .prim (.str m)) :
    (routeHandler cfg req t).uncaught = none
    ∧ sentOf (routeHandler cfg req t).trace
        = sentOf t ++ [⟨406, "<pre> " ++ reason ++ " </pre>"⟩] := by
  rw [dispatch_of_valid cfg req t s hs hcfg hp]
  simp only [List.mem_cons, List.mem_singleton, List.not_mem_nil, or_false,
    Prod.mk.injEq] at hmr
  rcases hmr with ⟨rfl, rfl⟩ | ⟨rfl, rfl⟩ | ⟨rfl, rfl⟩ | ⟨rfl, rfl⟩ | ⟨rfl, rfl⟩ <;>
    simp [lookup_of_str req "mode" (.prim (.bool false)) _ hm, JsValue.asPrim, MODE_STATUS,
      MODE_LOGFILE_UPLOAD, MODE_CONFIG_MANIFEST, MODE_CONFIG_UPLOAD, MODE_CONFIG_DOWNLOAD,
      MODE_TEST, sentOf_failure, sentOf_logInfo, failureBody]

/-- C5: with a password equal to the non-empty secret, the modes LOGFILEUPLOAD,
CONFIGFILEMANIFEST, CONFIGFILEUPLOAD, CONFIGFILEDOWNLOAD and MODE_TEST are
answered status 406, never 200, with the bodies `<pre> R </pre>` for R
respectively `Logfile Upload Not Implemented`, `Config Manifest Not
Implemented`, `Config Upload Not Implemented`, `Config Download Not
Implemented`, `Test Not Implemented`; the five bodies are pairwise different,
and none of them is the body of an unknown-mode, missing-mode or password
failure. -/
theorem not_implemented_literal_response (cfg : Config) (req : Request) (t : Trace) (s : String)
    (hs : s ≠ "") (hcfg : cfg.password = .str s)
    (hp : param req "password" undefined = .prim (.str s)) :
    (param req "mode" undefined = .prim (.str "LOGFILEUPLOAD") →
        (routeHandler cfg req t).uncaught = none
        ∧ sentOf (routeHandler cfg req t).trace
            = sentOf t ++ [⟨406, "<pre> Logfile Upload Not Implemented </pre>"⟩])
    ∧ (param req "mode" undefined = .prim (.str "CONFIGFILEMANIFEST") →
        (routeHandler cfg req t).uncaught = none
        ∧ sentOf (routeHandler cfg req t).trace
            = sentOf t ++ [⟨406, "<pre> Config Manifest Not Implemented </pre>"⟩])
    ∧ (param req "mode" undefined = .prim (.str "CONFIGFILEUPLOAD") →
        (routeHandler cfg req t).uncaught = none
        ∧ sentOf (routeHandler cfg req t).trace
            = sentOf t ++ [⟨406, "<pre> Config Upload Not Implemented </pre>"⟩])
    ∧ (param req "mode" undefined = .prim (.str "CONFIGFILEDOWNLOAD") →
        (routeHandler cfg req t).uncaught = none
        ∧ sentOf (routeHandler cfg req t).trace
            = sentOf t ++ [⟨406, "<pre> Config Download Not Implemented </pre>"⟩])
    ∧ (param req "mode" undefined = .prim (.str "MODE_TEST") →
        (routeHandler cfg req t).uncaught = none
        ∧ sentOf (routeHandler cfg req t).trace
            = sentOf t ++ [⟨406, "<pre> Test Not Implemented </pre>"⟩])
    ∧ ["<pre> Logfile Upload Not Implemented </pre>",
        "<pre> Config Manifest Not Implemented </pre>",
        "<pre> Config Upload Not Implemented </pre>",
        "<pre> Config Download Not Implemented </pre>",
        "<pre> Test Not Implemented </pre>"].Nodup
    ∧ (∀ body ∈ ["<pre> Logfile Upload Not Implemented </pre>",
        "<pre> Config Manifest Not Implemented </pre>",
        "<pre> Config Upload Not Implemented </pre>",
        "<pre> Config Download Not Implemented </pre>",
        "<pre> Test Not Implemented </pre>"],
        (∀ m : String, "<pre> Unknown mode \x27" ++ m ++ "\x27 </pre>" ≠ body)
        ∧ failureBody "Request must include mode parameter." ≠ body
        ∧ failureBody "password parameter is required." ≠ body
        ∧ failureBody "password was not correct." ≠ body) := by
  refine ⟨?_, ?_, ?_, ?_, ?_, by decide, ?_⟩
  · exact fun hm => not_implemented_of_mode cfg req t s hs hcfg hp "LOGFILEUPLOAD"
      "Logfile Upload Not Implemented" (by decide) hm
  · exact fun hm => not_implemented_of_mode cfg req t s hs hcfg hp "CONFIGFILEMANIFEST"
      "Config Manifest Not Implemented" (by decide) hm
  · exact fun hm => not_implemented_of_mode cfg req t s hs hcfg hp "CONFIGFILEUPLOAD"
      "Config Upload Not Implemented" (by decide) hm
  · exact fun hm => not_implemented_of_mode cfg req t s hs hcfg hp "CONFIGFILEDOWNLOAD"
      "Config Download Not Implemented" (by decide) hm
  · exact fun hm => not_implemented_of_mode cfg req t s hs hcfg hp "MODE_TEST"
      "Test Not Implemented" (by decide) hm
  · intro body hbody
    refine ⟨?_, ?_, ?_, ?_⟩
    · intro m h
      have hd := congrArg String.data h
      rw [unknown_body_data] at hd
      simp only [List.mem_cons, List.mem_singleton, List.not_mem_nil, or_false] at hbody
      rcases hbody with h | h | h | h | h <;> subst h <;> simp at hd
    · revert body; decide
    · revert body; decide
    · revert body; decide

/-- Witness for C5: each of the five modes on a sample request. -/
theorem not_implemented_literal_response_witness :
    sentOf (routeHandler sampleConfig (modeRequest "LOGFILEUPLOAD") []).trace
        = sentOf [] ++ [⟨406, "<pre> Logfile Upload Not Implemented </pre>"⟩]
    ∧ sentOf (routeHandler sampleConfig (modeRequest "CONFIGFILEMANIFEST") []).trace
        = sentOf [] ++ [⟨406, "<pre> Config Manifest Not Implemented </pre>"⟩]
    ∧ sentOf (routeHandler sampleConfig (modeRequest "CONFIGFILEUPLOAD") []).trace
        = sentOf [] ++ [⟨406, "<pre> Config Upload Not Implemented </pre>"⟩]
    ∧ sentOf (routeHandler sampleConfig (modeRequest "CONFIGFILEDOWNLOAD") []).trace
        = sentOf [] ++ [⟨406, "<pre> Config Download Not Implemented </pre>"⟩]
    ∧ sentOf (routeHandler sampleConfig (modeRequest "MODE_TEST") []).trace
        = sentOf [] ++ [⟨406, "<pre> Test Not Implemented </pre>"⟩] :=
  ⟨((not_implemented_literal_response sampleConfig (modeRequest "LOGFILEUPLOAD") [] "s3cret"
      (by decide) rfl rfl).1 rfl).2,
   ((not_implemented_literal_response sampleConfig (modeRequest "CONFIGFILEMANIFEST") [] "s3cret"
      (by decide) rfl rfl).2.1 rfl).2,
   ((not_implemented_literal_response sampleConfig (modeRequest "CONFIGFILEUPLOAD") [] "s3cret"
      (by decide) rfl rfl).2.2.1 rfl).2,
   ((not_implemented_literal_response sampleConfig (modeRequest "CONFIGFILEDOWNLOAD") [] "s3cret"
      (by decide) rfl rfl).2.2.2.1 rfl).2,
   ((not_implemented_literal_response sampleConfig (modeRequest "MODE_TEST") [] "s3cret"
      (by decide) rfl rfl).2.2.2.2.1 rfl).2⟩

/-! ## Parameter lookup -/

theorem inheritedMember_of_not_mem (k : String) (h : k ∉ inheritedNames) :
    inheritedMember k = undefined := by
  simp only [inheritedNames, List.mem_cons, List.mem_singleton, not_or, List.not_mem_nil,
    or_false] at h
  obtain ⟨h1, h2, h3, h4, h5, h6, h7, h8, h9, h10, h11, h12⟩ := h
  simp [inheritedMember, h1, h2, h3, h4, h5, h6, h7, h8, h9, h10, h11, h12]

/-- Off the names of `Object.prototype`, reading a property of a plain object
is reading its own field. -/
theorem get_eq_own (o : Obj) (k : String) (h : k ∉ inheritedNames) : o.get k = o.own k := by
  unfold Obj.get Obj.own
  cases o.lookup k with
  | some v => rfl
  | none => exact inheritedMember_of_not_mem k h

/-- An own field that is defined is what a property read returns. -/
theorem get_of_own_defined (o : Obj) (k : String)
    (h : (o.own k).asPrim ≠ some .undefined) : o.get k = o.own k := by
  unfold Obj.get Obj.own at *
  cases hl : o.lookup k with
  | some v => rfl
  | none => rw [hl] at h; exact absurd rfl h

/-- C8, as stated, fails: in a request with no route parameter, no body and no
query field, `param('constructor', 'dflt')` returns the function `Object`
that the empty route-parameter object inherits, not the default. -/
theorem constructor_lookup_counterexample :
    emptyRequest.params = [] ∧ emptyRequest.body = none ∧ emptyRequest.query = []
    ∧ param emptyRequest "constructor" (.prim (.str "dflt")) = .native "Object"
    ∧ (param emptyRequest "constructor" (.prim (.str "dflt"))).asPrim
        ≠ some (.str "dflt") :=
  ⟨rfl, rfl, rfl, rfl, by decide⟩

/-- C8, amended: for every lower-casing function, name, default and request,
`param` lower-cases the name and returns the first defined value that a
property read under that key yields in the route parameters, then the body
(skipped when there is none), then the query, else the default; it is a total
function.  A property read yields the source's own field, and where the
source has none the member inherited under that name, so that off the names
of `Object.prototype` the lookup is the first defined own field.  Two names
with the same lower-casing are looked up alike, and a `password` given as a
route parameter is the value returned, whatever the body and the query
hold.  On the sample request with `password` in all three sources the lookup
takes the route value, then the body value, then the query value, then the
default; and once the lower-casing function folds `Ä` to `ä`, a query field
`ä` is found under the name `Ä`. -/
theorem lookup_first_defined (lower : String → String) (req : Request) :
    (∀ name d, paramWith lower req name d
        = firstDefined (candidates Obj.get req (lower name)) d)
    ∧ (∀ name d, lower name ∉ inheritedNames →
        paramWith lower req name d = firstDefined (candidates Obj.own req (lower name)) d)
    ∧ (∀ n₁ n₂ d, lower n₁ = lower n₂ → paramWith lower req n₁ d = paramWith lower req n₂ d)
    ∧ (∀ d body query, (req.params.own "password").asPrim ≠ some .undefined →
        param { req with body := body, query := query } "password" d
          = req.params.own "password")
    ∧ (param threeSourceRequest "PASSWORD" undefined = .prim (.str "from-route")
      ∧ param threeSourceRequest "Mode" undefined = .prim (.str "from-body")
      ∧ param threeSourceRequest "upTime" undefined = .prim (.str "from-query")
      ∧ param threeSourceRequest "BootCount" (.prim (.str "dflt")) = .prim (.str "dflt")
      ∧ param threeSourceRequest "CONSTRUCTOR" (.prim (.str "dflt")) = .native "Object")
    ∧ (∀ x d, lower "Ä" = "ä" → x.asPrim ≠ some .undefined →
        paramWith lower (queryRequest [("ä", x)]) "Ä" d = x) := by
  refine ⟨?_, ?_, ?_, ?_, ⟨rfl, rfl, rfl, rfl, rfl⟩, ?_⟩
  · intro name d
    unfold paramWith candidates
    cases req.body <;> simp [firstDefined]
  · intro name d h
    unfold paramWith candidates
    cases hb : req.body <;> simp [firstDefined, get_eq_own _ _ h]
  · intro n₁ n₂ d h
    unfold paramWith
    rw [h]
  · intro d body query h
    have hg := get_of_own_defined req.params "password" h
    have hl : toLowerCase "password" = "password" := by decide
    simp only [param, paramWith, hl, hg]
    rw [if_pos h]
  · intro x d hl hx
    have hq : Obj.get [("ä", x)] "ä" = x := by
      simp [Obj.get, List.lookup]
    have hp : (Obj.get [] "ä").asPrim = some .undefined := by decide
    simp only [paramWith, queryRequest, hl, hq, hp, ne_eq, not_true_eq_false, if_false]
    rw [if_pos hx]

/-- Witness for C8 amended: the lookup of `MODE` in the sample request is the
first defined own field, the one of the body. -/
theorem lookup_first_defined_witness :
    paramWith toLowerCase threeSourceRequest "MODE" undefined
      = firstDefined (candidates Obj.own threeSourceRequest (toLowerCase "MODE")) undefined :=
  (lookup_first_defined toLowerCase threeSourceRequest).2.1 "MODE" undefined (by decide)

/-! ## Errors -/

/-- C10, as stated, fails: for `?password=s3cret&mode[toString]=1` the router
ends with an uncaught TypeError and no response; and the handler, run on that
request, throws on the mode value, which has no string conversion: nothing
catches the exception, and no response is sent. -/
theorem handler_throws_counterexample :
    (router toLowerCase sampleConfig objectModeRequest []).uncaught
        = some (.typeError "req.query is not iterable")
    ∧ sentOf (router toLowerCase sampleConfig objectModeRequest []).trace = []
    ∧ (routeHandler sampleConfig objectModeRequest []).uncaught
        = some (.typeError "Cannot convert object to primitive value")
    ∧ sentOf (routeHandler sampleConfig objectModeRequest []).trace = [] := by
  decide

/-- C10, amended: when the route handler runs on a request in which the mode
and every value found for one of the sixteen status names convert to strings,
it ends without an exception; when it ends without an exception it has sent
exactly one response, whose status is 200 or 406 and whose body is an
instance of the success template (200) or of the failure template (406); and
when it ends with an exception, which nothing in the router catches, it has
sent no response. -/
theorem handler_one_response (cfg : Config) (req : Request) (t : Trace) :
    ((param req "mode" (.prim (.bool false))).convertible = true →
        (∀ n ∈ paramNames, (param req n undefined).convertible = true) →
        (routeHandler cfg req t).uncaught = none)
    ∧ ((routeHandler cfg req t).uncaught = none →
        ∃ r : Response, sentOf (routeHandler cfg req t).trace = sentOf t ++ [r]
          ∧ ((r.status = 200 ∧ ∃ comment, r.body = successBody comment)
            ∨ (r.status = 406 ∧ ∃ reason, r.body = failureBody reason)))
    ∧ ((routeHandler cfg req t).uncaught ≠ none →
        sentOf (routeHandler cfg req t).trace = sentOf t) := by
  refine ⟨?_, ?_, ?_⟩
  · intro hmode hfields
    obtain ⟨text, hmt⟩ := (convertible_iff _).mp hmode
    obtain ⟨s', hs'⟩ := statusLoop_ok req paramNames
      ("Handling request from " ++ (requesterIp req).toStr ++ "\n") hfields
    have hrec : statusRecord req = .ok s' := hs'
    generalize hx : routeHandler cfg req t = x
    unfold routeHandler at hx
    simp only [hmt, handleStatus, hrec] at hx
    split_ifs at hx <;> subst hx <;> rfl
  · intro hnone
    rcases handler_endings cfg req t with ⟨reason, h⟩ | ⟨s, _, h⟩ | ⟨e, h⟩
    · rw [h]
      exact ⟨_, by rw [sentOf_failure, sentOf_logInfo], Or.inr ⟨rfl, reason, rfl⟩⟩
    · rw [h]
      exact ⟨_, by rw [sentOf_success, sentOf_logInfo, sentOf_logInfo],
        Or.inl ⟨rfl, "", rfl⟩⟩
    · rw [h] at hnone
      cases hnone
  · intro hsome
    rcases handler_endings cfg req t with ⟨reason, h⟩ | ⟨s, _, h⟩ | ⟨e, h⟩
    · rw [h] at hsome
      exact absurd rfl hsome
    · rw [h] at hsome
      exact absurd rfl hsome
    · rw [h, sentOf_logInfo]

/-- Witness for C10 amended: the sample STATUS request. -/
theorem handler_one_response_witness :
    (routeHandler sampleConfig statusRequest []).uncaught = none :=
  (handler_one_response sampleConfig statusRequest []).1 (by decide) (by decide)

/-! ## The audit trail -/

/-- C12: on the trace of events, the handler first appends the info-level
entry `Received Obvious protocol request from <ip>`.  A request answered 406
then gets exactly one entry, at error level, reading `Obvius protocol request
from <ip> failed due to <reason>`, followed by the response whose body holds
that same reason; a request answered 200 gets one info-level entry followed by
the response, and no error-level entry; a handler that throws appends nothing
more. -/
theorem audit_trail_order (cfg : Config) (req : Request) (t : Trace) :
    ∃ rest : Trace,
      (routeHandler cfg req t).trace
        = t ++ .logged ⟨.info, "Received Obvious protocol request from "
            ++ (requesterIp req).toStr⟩ :: rest
      ∧ ((∃ reason, (routeHandler cfg req t).uncaught = none
            ∧ rest = [.logged ⟨.error, "Obvius protocol request from "
                  ++ (requesterIp req).toStr ++ " failed due to " ++ reason⟩,
                .sent ⟨406, "<pre> " ++ reason ++ " </pre>"⟩])
        ∨ (∃ s, (routeHandler cfg req t).uncaught = none
            ∧ rest = [.logged ⟨.info, s⟩, .sent ⟨200, "<pre>\nSUCCESS\n  \"</pre>"⟩])
        ∨ ((routeHandler cfg req t).uncaught ≠ none ∧ rest = [])) := by
  rcases handler_endings cfg req t with ⟨reason, h⟩ | ⟨s, _, h⟩ | ⟨e, h⟩
  · refine ⟨_, ?_, Or.inl ⟨reason, by rw [h], rfl⟩⟩
    rw [h]
    simp [failure, logError, logInfo, send, failureBody]
  · refine ⟨_, ?_, Or.inr (Or.inl ⟨s, by rw [h], rfl⟩)⟩
    rw [h]
    simp [success, logInfo, send, successBody]
  · refine ⟨[], ?_, Or.inr (Or.inr ⟨by rw [h]; simp, rfl⟩)⟩
    rw [h]
    simp [logInfo]

/-! ## The STATUS record -/

/-- C14, as stated, fails: in the sample request `uptime` is defined, with
the value `false`; the request reaches the STATUS handler, which answers 200,
and the line for UPTIME is `No UPTIME submitted`. -/
theorem false_value_counterexample :
    param falseFieldRequest "UPTIME" undefined = .prim (.bool false)
    ∧ (param falseFieldRequest "UPTIME" undefined).asPrim ≠ some .undefined
    ∧ sentOf (routeHandler sampleConfig falseFieldRequest []).trace
        = [⟨200, "<pre>\nSUCCESS\n  \"</pre>"⟩]
    ∧ statusLine falseFieldRequest "UPTIME" = .ok "\tNo UPTIME submitted\n"
    ∧ statusLine falseFieldRequest "UPTIME" ≠ .ok "\tGot UPTIME: false\n" :=
  ⟨rfl, by decide, by decide, rfl, by
    intro h
    have h' : statusLine falseFieldRequest "UPTIME" = .ok "\tNo UPTIME submitted\n" := rfl
    rw [h'] at h
    exact absurd (Except.ok.inj h) (by decide)⟩

/-- C14, amended: the names of the STATUS handler are the sixteen of the
list, in that order.  When each of the sixteen lines can be built, the handler
writes exactly one info-level record, the line `Handling request from <ip>`
followed by the sixteen lines in order, and then answers 200; when a value
has no string conversion the handler throws and writes no record.  The line
for a name N is `No N submitted` when `param(N)` is `undefined` or the boolean
`false`, and `Got N: <value>` otherwise, with the value converted to a string
(an empty string gives `Got N: ` with nothing after it); when the mode is
`STATUS` the MODE line is `Got MODE: STATUS`. -/
theorem status_record_sixteen_lines (req : Request) (t : Trace) :
    paramNames = ["MODE", "SENDDATATRACE", "SERIALNUMBER", "GSMSIGNAL", "LOOPNAME", "UPTIME",
      "PERCENTBLOCKSINUSE", "PERCENTINODESINUSE", "UPLOADATTEMPT", "ACQUISUITEVERSION",
      "USRVERSION", "ROOTVERSION", "KERNELVERSION", "FIRMWAREVERSION", "BOOTCOUNT",
      "BATTERYGOOD"]
    ∧ (∀ lines : List String,
        List.Forall₂ (fun n line => statusLine req n = .ok line) paramNames lines →
        handleStatus req t
          = ⟨t ++ [.logged ⟨.info, lines.foldl (· ++ ·)
                ("Handling request from " ++ (requesterIp req).toStr ++ "\n")⟩,
              .sent ⟨200, "<pre>\nSUCCESS\n  \"</pre>"⟩], none⟩)
    ∧ ((∃ n ∈ paramNames, ∃ e, statusLine req n = .error e) →
        ∃ e, handleStatus req t = ⟨t, some e⟩)
    ∧ (∀ N : String,
        ((param req N undefined).asPrim = some .undefined
            ∨ (param req N undefined).asPrim = some (.bool false) →
          statusLine req N = .ok ("\tNo " ++ N ++ " submitted\n"))
        ∧ ((param req N undefined).asPrim ≠ some .undefined →
            (param req N undefined).asPrim ≠ some (.bool false) →
            (∀ text, (param req N undefined).toStr = .ok text →
              statusLine req N = .ok ("\tGot " ++ N ++ ": " ++ text ++ "\n"))
            ∧ (∀ e, (param req N undefined).toStr = .error e →
              statusLine req N = .error e))
        ∧ (param req N undefined = .prim (.str "") →
            statusLine req N = .ok ("\tGot " ++ N ++ ": " ++ "\n")))
    ∧ (param req "mode" (.prim (.bool false)) = .prim (.str "STATUS") →
        statusLine req "MODE" = .ok "\tGot MODE: STATUS\n") := by
  refine ⟨rfl, ?_, ?_, ?_, ?_⟩
  · intro lines h
    have hrec : statusRecord req = .ok (lines.foldl (· ++ ·)
        ("Handling request from " ++ (requesterIp req).toStr ++ "\n")) :=
      statusLoop_of_lines req paramNames lines _ h
    simp [handleStatus, hrec, success, logInfo, send, successBody]
  · intro h
    obtain ⟨e, he⟩ := statusLoop_of_error req paramNames
      ("Handling request from " ++ (requesterIp req).toStr ++ "\n") h
    have hrec : statusRecord req = .error e := he
    exact ⟨e, by simp [handleStatus, hrec]⟩
  · intro N
    refine ⟨?_, ?_, ?_⟩
    · rintro (h | h) <;> simp [statusLine, h]
    · intro h1 h2
      refine ⟨?_, ?_⟩
      · intro text ht
        simp [statusLine, h1, h2, ht]
      · intro e he
        simp [statusLine, h1, h2, he]
    · intro h
      simp [statusLine, h, JsValue.asPrim, JsValue.toStr, JsVal.toStr]
  · intro h
    have hl : toLowerCase "MODE" = toLowerCase "mode" := by decide
    have hm : param req "MODE" undefined = .prim (.str "STATUS") := by
      have h' : param req "mode" undefined = .prim (.str "STATUS") := by
        by_cases hu : (param req "mode" undefined).asPrim = some .undefined
        · exfalso
          have hd : param req "mode" (.prim (.bool false)) = .prim (.bool false) := by
            unfold param paramWith at hu ⊢
            cases hb : req.body <;> simp only [hb] at hu ⊢ <;> split_ifs at hu ⊢ <;>
              first | rfl | (exfalso; simp_all)
          rw [hd] at h
          cases h
        · rw [← lookup_of_defined req "mode" (.prim (.bool false)) hu]
          exact h
      unfold param paramWith at h' ⊢
      rw [hl]
      exact h'
    simp [statusLine, hm, JsValue.asPrim, JsValue.toStr, JsVal.toStr]

/-- Witness for C14 amended: the lines of the sample request with a `false`
field, an empty field and an array. -/
theorem status_record_sixteen_lines_witness :
    statusLine falseFieldRequest "UPTIME" = .ok ("\tNo " ++ "UPTIME" ++ " submitted\n")
    ∧ statusLine falseFieldRequest "LOOPNAME" = .ok ("\tGot " ++ "LOOPNAME" ++ ": " ++ "\n")
    ∧ statusLine falseFieldRequest "SERIALNUMBER"
        = .ok ("\tGot " ++ "SERIALNUMBER" ++ ": " ++ "A1,B2" ++ "\n")
    ∧ statusLine falseFieldRequest "MODE" = .ok "\tGot MODE: STATUS\n" :=
  ⟨((status_record_sixteen_lines falseFieldRequest []).2.2.2.1 "UPTIME").1 (Or.inr rfl),
   ((status_record_sixteen_lines falseFieldRequest []).2.2.2.1 "LOOPNAME").2.2 rfl,
   (((status_record_sixteen_lines falseFieldRequest []).2.2.2.1 "SERIALNUMBER").2.1
      (by decide) (by decide)).1 "A1,B2" rfl,
   (status_record_sixteen_lines falseFieldRequest []).2.2.2.2 rfl⟩

/-! ## Requests of primitives -/

theorem lookup_embedObj (o : Dict) (k : String) :
    (embedObj o).lookup k = (o.lookup k).map JsValue.prim := by
  induction o with
  | nil => rfl
  | cons kv rest ih =>
    obtain ⟨k', v⟩ := kv
    simp only [embedObj, List.map_cons, List.lookup_cons] at ih ⊢
    cases hk : k == k' with
    | true => rfl
    | false => exact ih

/-- Off the names of `Object.prototype`, a property read of an embedded
object is the read of the object of primitives. -/
theorem get_embedObj (o : Dict) (k : String) (h : k ∉ inheritedNames) :
    (embedObj o).get k = .prim (o.get k) := by
  unfold Obj.get Dict.get
  rw [lookup_embedObj]
  cases o.lookup k with
  | some v => rfl
  | none => exact inheritedMember_of_not_mem k h

/-- The lookup of a name in an embedded request is the lookup in the request
of primitives. -/
theorem param_embed (req : Obvius.Request) (name : String) (d : JsVal)
    (h : toLowerCase name ∉ inheritedNames) :
    param (embed req) name (.prim d) = .prim (Obvius.param req name d) := by
  unfold param paramWith Obvius.param embed
  simp only [get_embedObj _ _ h, JsValue.asPrim, ne_eq, Option.some.injEq]
  cases req.body with
  | none =>
    simp only [Option.map_none']
    split_ifs <;> rfl
  | some b =>
    simp only [Option.map_some', get_embedObj _ _ h, JsValue.asPrim, Option.some.injEq]
    split_ifs <;> rfl

theorem paramNames_not_inherited : ∀ n ∈ paramNames, toLowerCase n ∉ inheritedNames := by
  decide

theorem statusLine_embed (req : Obvius.Request) (n : String)
    (h : toLowerCase n ∉ inheritedNames) :
    statusLine (embed req) n = .ok (Obvius.statusLine req n) := by
  unfold statusLine Obvius.statusLine
  have hp : param (embed req) n undefined = .prim (Obvius.param req n .undefined) :=
    param_embed req n .undefined h
  simp only [hp, JsValue.asPrim, JsValue.toStr, ne_eq, Option.some.injEq]
  split_ifs <;> rfl

theorem statusLoop_embed (req : Obvius.Request) :
    ∀ (names : List String) (s : String),
      (∀ n ∈ names, toLowerCase n ∉ inheritedNames) →
      statusLoop (embed req) names s
        = .ok (names.foldl (fun s n => s ++ Obvius.statusLine req n) s) := by
  intro names
  induction names with
  | nil => intro s _; rfl
  | cons n rest ih =>
    intro s h
    simp only [statusLoop, statusLine_embed req n (h n (List.mem_cons_self _ _)),
      List.foldl_cons]
    exact ih _ (fun m hm => h m (List.mem_cons_of_mem _ hm))

theorem statusRecord_embed (req : Obvius.Request) :
    statusRecord (embed req) = .ok (Obvius.statusRecord req) :=
  statusLoop_embed req paramNames _ paramNames_not_inherited

/-- On a request whose parameter values are all primitives the handler never
throws, and the log entries it writes and the responses it sends are those of
the handler on primitives. -/
theorem routeHandler_embed (cfg : Config) (req : Obvius.Request) :
    (routeHandler cfg (embed req) []).uncaught = none
    ∧ logOf (routeHandler cfg (embed req) []).trace
        = (Obvius.routeHandler cfg req emptyState).log
    ∧ sentOf (routeHandler cfg (embed req) []).trace
        = (Obvius.routeHandler cfg req emptyState).sent := by
  have hpw : param (embed req) "password" undefined
      = .prim (Obvius.param req "password" .undefined) :=
    param_embed req "password" .undefined (by decide)
  have hmode : param (embed req) "mode" (.prim (.bool false))
      = .prim (Obvius.param req "mode" (.bool false)) :=
    param_embed req "mode" (.bool false) (by decide)
  have hip : requesterIp (embed req) = Obvius.requesterIp req := rfl
  have hrec := statusRecord_embed req
  refine ⟨?_, ?_, ?_⟩
  · unfold routeHandler
    simp only [hpw, hmode, JsValue.asPrim, JsValue.truthy, JsValue.toStr, handleStatus, hrec,
      apply_ite Run.uncaught, ite_self]
  · unfold routeHandler Obvius.routeHandler
    simp only [hpw, hmode, hip, JsValue.asPrim, JsValue.truthy, JsValue.toStr, handleStatus,
      hrec, ne_eq, Option.some.injEq, apply_ite Run.trace, apply_ite logOf,
      apply_ite State.log]
    simp [failure, logError, logInfo, send, success, logOf, Obvius.failure, Obvius.logError,
      Obvius.logInfo, Obvius.send, Obvius.success, Obvius.handleStatus, emptyState, hip]
  · unfold routeHandler Obvius.routeHandler
    simp only [hpw, hmode, hip, JsValue.asPrim, JsValue.truthy, JsValue.toStr, handleStatus,
      hrec, ne_eq, Option.some.injEq, apply_ite Run.trace, apply_ite sentOf,
      apply_ite State.sent]
    simp [failure, logError, logInfo, send, success, sentOf, Obvius.failure, Obvius.logError,
      Obvius.logInfo, Obvius.send, Obvius.success, Obvius.handleStatus, emptyState, hip]

end Obvius.Full
